import Mathlib

/-!
Verification of the Authorino AuthConfig reconciler, OIDC and API-key
identity evaluators, and the generated deep-copy functions, against their
natural-language specification.

The Go sources are shallowly embedded: pure fragments become Lean
functions, stateful fragments thread their state explicitly, fallible
fragments return `Except`, and code that can panic returns a `GoResult`
with an explicit panic constructor.  External collaborators (the
Kubernetes client, the go-oidc discovery call, the cron worker) enter as
explicit parameters describing their outcome.
-/

set_option maxHeartbeats 1000000
set_option maxRecDepth 4096
set_option synthInstance.maxSize 2048

/-- Errors returned by Go functions are modelled as their message strings. -/
abbrev GoError := String

/-! ## Declarative API types (api/v1beta1), as used by the controller -/

/-- JSONPatternExpression: a triple of selector, operator and value
(api/v1beta1, used by buildJSONPatternExpressions). -/
structure JSONPatternExpression where
  selector : String
  operator : String
  value : String
deriving DecidableEq

/-- JSONPattern: a possibly-named pattern rule.  `jsonPatternName` is the
JSONPatternRef component, `jsonPatternExpression` the inline expression
component (api/v1beta1). -/
structure JSONPattern where
  jsonPatternName : String
  jsonPatternExpression : JSONPatternExpression
deriving DecidableEq

/-- common.JSONPatternMatchingRule: the runtime form of a pattern rule
produced by buildJSONPatternExpressions. -/
structure JSONPatternMatchingRule where
  selector : String
  operator : String
  value : String
deriving DecidableEq

/-- JsonProperty of the declarative API: name, static value, and the
ValueFrom.AuthJSON selector. -/
structure JsonPropertyS where
  name : String
  value : String
  valueFromAuthJSON : String
deriving DecidableEq

/-- Credentials of the declarative API: KeySelector and In location. -/
structure CredentialsS where
  keySelector : String
  location : String
deriving DecidableEq

/-- SecretKeyReference of the declarative API. -/
structure SecretKeyRefS where
  name : String
  key : String
deriving DecidableEq

/-- Wristband signing key reference. -/
structure SigningKeyRefS where
  name : String
  algorithm : String
deriving DecidableEq

/-- Identity kind payloads, mirroring the cases of identity.GetType()
dispatched in translateAuthConfig. -/
inductive IdentityVariant where
  | oauth2 (tokenIntrospectionUrl : String) (tokenTypeHint : String) (credentialsName : String)
  | oidc (endpoint : String) (ttl : Int)
  | apiKey (labelSelectors : List (String × String)) (allNamespaces : Bool)
  | kubernetesAuth (audiences : List String)
  | anonymous
  | unknown
deriving DecidableEq

/-- Identity entry of an AuthConfig spec. -/
structure IdentityS where
  name : String
  priority : Int
  conditions : List JSONPattern
  metrics : Bool
  extendedProperties : List JsonPropertyS
  credentials : CredentialsS
  variant : IdentityVariant
deriving DecidableEq

/-- Metadata kind payloads, mirroring metadata.GetType() dispatch in
translateAuthConfig. -/
inductive MetadataVariant where
  | uma (endpoint : String) (credentialsName : String)
  | userInfo (identitySource : String)
  | genericHTTP (endpoint : String) (method : String) (contentType : String)
      (sharedSecret : Option SecretKeyRefS)
      (parameters : List JsonPropertyS) (headers : List JsonPropertyS)
      (credentials : CredentialsS)
  | unknown
deriving DecidableEq

/-- Metadata entry of an AuthConfig spec. -/
structure MetadataS where
  name : String
  priority : Int
  conditions : List JSONPattern
  metrics : Bool
  variant : MetadataVariant
deriving DecidableEq

/-- A static-or-selector value of the declarative API (Value plus
ValueFrom.AuthJSON), as read by the KubernetesAuthz translation. -/
structure ValueOrSelectorS where
  value : String
  authJSON : String
deriving DecidableEq

/-- OPA external registry block of the declarative API. -/
structure OPARegistryS where
  endpoint : String
  sharedSecret : Option SecretKeyRefS
  credentials : CredentialsS
  ttl : Int
deriving DecidableEq

/-- KubernetesAuthz resource attributes block of the declarative API. -/
structure K8sResourceAttributesS where
  nspace : ValueOrSelectorS
  group : ValueOrSelectorS
  resource : ValueOrSelectorS
  name : ValueOrSelectorS
  subResource : ValueOrSelectorS
  verb : ValueOrSelectorS
deriving DecidableEq

/-- Authorization kind payloads, mirroring authorization.GetType()
dispatch in translateAuthConfig. -/
inductive AuthorizationVariant where
  | opa (inlineRego : String) (allValues : Bool) (registry : OPARegistryS)
  | json (rules : List JSONPattern)
  | kubernetesAuthz (user : ValueOrSelectorS) (groups : List String)
      (resourceAttributes : Option K8sResourceAttributesS)
  | unknown
deriving DecidableEq

/-- Authorization entry of an AuthConfig spec. -/
structure AuthorizationS where
  name : String
  priority : Int
  conditions : List JSONPattern
  metrics : Bool
  variant : AuthorizationVariant
deriving DecidableEq

/-- Response kind payloads, mirroring response.GetType() dispatch in
translateAuthConfig. -/
inductive ResponseVariant where
  | wristband (issuer : String) (customClaims : List JsonPropertyS)
      (tokenDuration : Int) (signingKeyRefs : List SigningKeyRefS)
  | dynamicJSON (properties : List JsonPropertyS)
  | unknown
deriving DecidableEq

/-- Response entry of an AuthConfig spec. -/
structure ResponseS where
  name : String
  priority : Int
  conditions : List JSONPattern
  metrics : Bool
  wrapper : String
  wrapperKey : String
  variant : ResponseVariant
deriving DecidableEq

/-- DenyWithSpec of the declarative API as consumed by
buildAuthorinoDenyWithValues (Code, Message, Headers). -/
structure DenyWithSpecS where
  code : Int
  message : String
  headers : List JsonPropertyS
deriving DecidableEq

/-- DenyWith block of an AuthConfig spec. -/
structure DenyWithS where
  unauthenticated : Option DenyWithSpecS
  unauthorized : Option DenyWithSpecS
deriving DecidableEq

/-- AuthConfigSpec: hosts, named patterns, top-level conditions, the four
phase lists and the optional denyWith block. -/
structure AuthConfigSpecS where
  hosts : List String
  patterns : List (String × List JSONPatternExpression)
  conditions : List JSONPattern
  identity : List IdentityS
  metadata : List MetadataS
  authorization : List AuthorizationS
  response : List ResponseS
  denyWith : Option DenyWithS
deriving DecidableEq

/-- An AuthConfig object: its namespace and name plus its spec. -/
structure AuthConfigS where
  nspace : String
  name : String
  spec : AuthConfigSpecS
deriving DecidableEq

/-! ## buildJSONPatternExpressions (auth_config_controller.go:509) -/

/-- Lookup of a named pattern in the Patterns map of the spec
(`authConfig.Spec.Patterns[pattern.JSONPatternName]`). -/
def lookupPatterns (patterns : List (String × List JSONPatternExpression))
    (name : String) : Option (List JSONPatternExpression) :=
  (patterns.find? (fun kv => kv.1 == name)).map (fun kv => kv.2)

/-- Conversion of one JSONPatternExpression into the runtime rule
(the append at auth_config_controller.go:521-527). -/
def toRule (e : JSONPatternExpression) : JSONPatternMatchingRule :=
  { selector := e.selector, operator := e.operator, value := e.value }

/-- buildJSONPatternExpressions (auth_config_controller.go:509-531): for
each rule, the named pattern is looked up; when found its expressions are
appended, otherwise the inline expression is appended. -/
def buildJSONPatternExpressions (ac : AuthConfigS) (patterns : List JSONPattern) :
    List JSONPatternMatchingRule :=
  patterns.foldl
    (fun expressions pattern =>
      let expressionsToAdd : List JSONPatternExpression :=
        match lookupPatterns ac.spec.patterns pattern.jsonPatternName with
        | some expressionsByRef => expressionsByRef
        | none => [pattern.jsonPatternExpression]
      expressions ++ expressionsToAdd.map toRule)
    []

/-- The expansion as the spec words it: a rule that references a named
pattern of the AuthConfig expands to the full list of expressions of that
pattern, any other rule to exactly its single inline expression, in
order. -/
def specPatternRuleExpansion (ac : AuthConfigS) (patterns : List JSONPattern) :
    List JSONPatternMatchingRule :=
  patterns.foldr
    (fun pattern rest =>
      (match lookupPatterns ac.spec.patterns pattern.jsonPatternName with
       | some exprs => exprs.map toRule
       | none => [toRule pattern.jsonPatternExpression]) ++ rest)
    []

theorem buildJSONPatternExpressions_foldl_general (ac : AuthConfigS)
    (patterns : List JSONPattern) (acc : List JSONPatternMatchingRule) :
    patterns.foldl
      (fun expressions pattern =>
        let expressionsToAdd : List JSONPatternExpression :=
          match lookupPatterns ac.spec.patterns pattern.jsonPatternName with
          | some expressionsByRef => expressionsByRef
          | none => [pattern.jsonPatternExpression]
        expressions ++ expressionsToAdd.map toRule)
      acc
    = acc ++ specPatternRuleExpansion ac patterns := by
  induction patterns generalizing acc with
  | nil => simp [specPatternRuleExpansion]
  | cons p ps ih =>
    simp only [List.foldl_cons, specPatternRuleExpansion, List.foldr_cons]
    rw [ih]
    cases h : lookupPatterns ac.spec.patterns p.jsonPatternName <;>
      simp [specPatternRuleExpansion, h, List.append_assoc]

/-- Claim C6: building the matching rules expands a rule whose name
matches a named pattern of the AuthConfig into the full list of that
pattern's expressions, and turns every other rule into exactly its single
inline (selector, operator, value) expression, preserving order. -/
theorem c6_build_pattern_expressions (ac : AuthConfigS) (patterns : List JSONPattern) :
    buildJSONPatternExpressions ac patterns = specPatternRuleExpansion ac patterns := by
  unfold buildJSONPatternExpressions
  simpa using buildJSONPatternExpressions_foldl_general ac patterns []

/-! ## OIDC identity evaluator (pkg/config/identity/oidc.go) -/

/-- The outcome of a Go call that may also panic (nil dereference or a
failed interface conversion), in addition to returning a value or an
error. -/
inductive GoResult (α : Type) where
  | ok (a : α)
  | err (msg : String)
  | panicked (msg : String)
deriving DecidableEq

/-- A JSON claim value of the discovery document: either a string or some
non-string JSON value.  A Go type assertion `.(string)` succeeds exactly
on the string case. -/
inductive ClaimValue where
  | str (s : String)
  | other
deriving DecidableEq

/-- A discovered OpenID Connect provider (goidc.Provider), reduced to the
claims of its discovery document, which is all the embedded methods
read. -/
structure Provider where
  claims : List (String × ClaimValue)
deriving DecidableEq

/-- Modelled from the spec: a cron.Worker (pkg/cron is not among the
sources).  The spec only requires that its stop-channel is invoked by
Clean, so a worker is reduced to the outcome of its Stop method
(none models a nil error). -/
structure Worker where
  stopResult : Option GoError
deriving DecidableEq

/-- auth.AuthCredential: the location and key selector used to extract a
credential from a request (pkg/auth, constructor NewAuthCredential). -/
structure AuthCredential where
  keySelector : String
  location : String
deriving DecidableEq

/-- The OIDC evaluator state: endpoint, credentials, the currently
discovered provider (nil when discovery never succeeded) and the optional
refresher worker. -/
structure OIDCState where
  creds : AuthCredential
  endpoint : String
  provider : Option Provider
  refresher : Option Worker
deriving DecidableEq

def msg_oidcProviderConfigMissingError : String :=
  "missing openid connect configuration"

/-- OIDC.getProvider (oidc.go:57-69): when no provider is stored or force
is set, discovery is attempted; on discovery error the stored provider is
kept (only logged), on success it is overwritten.  The stored provider is
returned either way.  `discovery` is the outcome goidc.NewProvider would
produce on this call. -/
def getProvider (oidc : OIDCState) (force : Bool)
    (discovery : Except String Provider) : OIDCState × Option Provider :=
  let oidc' :=
    if oidc.provider.isNone || force then
      match discovery with
      | .error _ => oidc
      | .ok provider => { oidc with provider := some provider }
    else oidc
  (oidc', oidc'.provider)

/-- OIDC.verifyToken (oidc.go:90-103): fetches the provider (no force);
nil provider yields the missing-configuration error, otherwise the
verifier runs against the stored provider.  `verify` is the outcome
Provider.Verifier(...).Verify would produce, the token payload modelled
as a string. -/
def verifyToken (oidc : OIDCState) (accessToken : String)
    (verify : Provider → String → Except String String)
    (discovery : Except String Provider) :
    OIDCState × Except String String :=
  let r := getProvider oidc false discovery
  match r.2 with
  | none => (r.1, .error msg_oidcProviderConfigMissingError)
  | some provider => (r.1, verify provider accessToken)

/-- OIDC.GetURL (oidc.go:105-114): calls Claims on the result of
getProvider without a nil check, then type-asserts the requested claim to
string without a comma-ok check.  A nil provider therefore panics with a
nil-pointer dereference, and a missing or non-string claim panics with a
failed interface conversion.  `urlParse` is the outcome url.Parse would
produce. -/
def GetURL (oidc : OIDCState) (name : String)
    (urlParse : String → Except String String)
    (discovery : Except String Provider) : GoResult String :=
  match (getProvider oidc false discovery).2 with
  | none => .panicked "invalid memory address or nil pointer dereference"
  | some provider =>
    match provider.claims.find? (fun kv => kv.1 == name) with
    | some (_, .str s) =>
      match urlParse s with
      | .ok endpoint => .ok endpoint
      | .error e => .err e
    | some (_, .other) => .panicked "interface conversion"
    | none => .panicked "interface conversion"

/-- OIDC.configureProviderRefresh + NewOIDC (oidc.go:30-39, 116-126): a
fresh state with nil provider, one discovery attempt, then the refresher
is set from the cron.StartWorker outcome (nil when starting the worker
failed, which is only logged). -/
def NewOIDC (endpoint : String) (creds : AuthCredential)
    (discovery : Except String Provider)
    (startWorker : Except String Worker) : OIDCState :=
  let oidc : OIDCState :=
    { creds := creds, endpoint := endpoint, provider := none, refresher := none }
  let oidc := (getProvider oidc false discovery).1
  { oidc with refresher := startWorker.toOption }

/-- OIDC.Clean (oidc.go:129-134): nil refresher returns nil, otherwise
the refresher is stopped and its result returned.  The boolean records
whether Stop was invoked. -/
def OIDCClean (oidc : OIDCState) : Option GoError × Bool :=
  match oidc.refresher with
  | none => (none, false)
  | some worker => (worker.stopResult, true)

/-- An OIDC evaluator whose discovery has never succeeded. -/
def oidcNoProvider : OIDCState :=
  { creds := { keySelector := "Bearer", location := "authorization_header" }
    endpoint := "http://keycloak.test/realms/demo"
    provider := none
    refresher := none }

/-- A discovery document that lacks the userinfo endpoint claim. -/
def providerNoUserinfo : Provider :=
  { claims := [("issuer", ClaimValue.str "http://keycloak.test/realms/demo")] }

/-- An OIDC evaluator holding a provider whose discovery document lacks
the requested claim. -/
def oidcStaleProvider : OIDCState :=
  { oidcNoProvider with provider := some providerNoUserinfo }

/-- Claim C2 (refuted, code bug): GetURL does not return an error value
on a nil discovered provider or on a provider whose discovery document
lacks the requested claim; it panics in both cases, contradicting the
requirement that no panic escapes an evaluator. -/
theorem c2_oidc_geturl_panics :
    GetURL oidcNoProvider "userinfo_endpoint" (fun s => .ok s)
        (.error "connection refused")
      = .panicked "invalid memory address or nil pointer dereference"
    ∧ GetURL oidcStaleProvider "userinfo_endpoint" (fun s => .ok s)
        (.ok providerNoUserinfo)
      = .panicked "interface conversion" := by
  exact ⟨rfl, rfl⟩

/-- Claim C8: Clean stops the refresher started at construction when
cron.StartWorker succeeded, returning the outcome of Stop, and returns
nil without stopping anything when no refresher was started. -/
theorem c8_oidc_clean (endpoint : String) (creds : AuthCredential)
    (discovery : Except String Provider) (worker : Worker) (e : String) :
    OIDCClean (NewOIDC endpoint creds discovery (.ok worker))
      = (worker.stopResult, true)
    ∧ OIDCClean (NewOIDC endpoint creds discovery (.error e))
      = (none, false) := by
  cases discovery <;> exact ⟨rfl, rfl⟩

/-- Claim C10: a failed discovery refresh never discards a previously
discovered provider: with a stored provider, getProvider under a failing
discovery leaves the state unchanged and returns the stored provider (for
any force flag), and verifyToken keeps verifying against it. -/
theorem c10_provider_monotone (oidc : OIDCState) (p : Provider) (force : Bool)
    (e : String) (accessToken : String)
    (verify : Provider → String → Except String String) :
    getProvider { oidc with provider := some p } force (.error e)
      = ({ oidc with provider := some p }, some p)
    ∧ verifyToken { oidc with provider := some p } accessToken verify (.error e)
      = ({ oidc with provider := some p }, verify p accessToken) := by
  cases force <;> exact ⟨rfl, rfl⟩

/-! ## APIKey identity evaluator (pkg/config/identity/api_key.go) -/

/-- A Kubernetes v1.Secret, reduced to its identifying coordinates and
its string data map (Go bytes read as strings). -/
structure SecretT where
  nspace : String
  name : String
  data : List (String × String)
deriving DecidableEq

/-- Reading `secret.Data[key]` of a Go map: the empty string when the key
is absent (nil byte slice converted to string). -/
def SecretT.dataGet (s : SecretT) (key : String) : String :=
  ((s.data.find? (fun kv => kv.1 == key)).map (fun kv => kv.2)).getD ""

def apiKeySelector : String := "api_key"

def invalidApiKeyMsg : String := "the API Key provided is invalid"

/-- Insertion into a Go map represented as an association list: any
earlier binding of the key is replaced. -/
def mapInsert (m : List (String × SecretT)) (key : String) (v : SecretT) :
    List (String × SecretT) :=
  m.filter (fun kv => ¬(kv.1 == key)) ++ [(key, v)]

/-- The parsedSecrets loop of APIKey.GetCredentialsFromCluster
(api_key.go): `parsedSecrets[string(secret.Data[apiKeySelector])] =
secret` over the listed secrets. -/
def parseSecrets (secrets : List SecretT) : List (String × SecretT) :=
  secrets.foldl (fun m secret => mapInsert m (secret.dataGet apiKeySelector) secret) []

/-- The namespace restriction of the cluster list in
GetCredentialsFromCluster: `client.InNamespace` is added exactly when the
stored namespace is non-empty; none ranges over all namespaces. -/
def inNamespaceOpt (nspace : String) : Option String :=
  if nspace == "" then none else some nspace

/-- The APIKey evaluator state. -/
structure APIKeyState where
  creds : AuthCredential
  name : String
  labelSelectors : List (String × String)
  nspace : String
  authorizedCredentials : List (String × SecretT)
deriving DecidableEq

/-- NewApiKeyIdentity (api_key.go): authorizedCredentials starts nil and
is filled by GetCredentialsFromCluster; when the construction-time
cluster fetch fails the error is only logged and the map stays nil.
`fetchResult` is the outcome of the k8s List call (the secrets matching
the label selectors in the looked-up namespace scope). -/
def NewApiKeyIdentity (name : String) (labelSelectors : List (String × String))
    (nspace : String) (authCred : AuthCredential)
    (fetchResult : Except GoError (List SecretT)) : APIKeyState :=
  { creds := authCred, name := name, labelSelectors := labelSelectors,
    nspace := nspace,
    authorizedCredentials :=
      match fetchResult with
      | .error _ => []
      | .ok secrets => parseSecrets secrets }

/-- APIKey.Call (api_key.go): an extraction error is returned as is;
otherwise the extracted key is compared against the authorized
credentials and the matching secret returned, or the invalid-API-key
error when none matches.  `reqCredential` is the outcome of
GetCredentialsFromReq. -/
def APIKeyCall (apiKey : APIKeyState) (reqCredential : Except GoError String) :
    Except GoError SecretT :=
  match reqCredential with
  | .error e => .error e
  | .ok reqKey =>
    match apiKey.authorizedCredentials.find? (fun kv => kv.1 == reqKey) with
    | some kv => .ok kv.2
    | none => .error invalidApiKeyMsg

theorem find?_eq_some_of_mem_of_nodupKeys {m : List (String × SecretT)}
    {k : String} {v : SecretT}
    (hnd : (m.map Prod.fst).Nodup) (hmem : (k, v) ∈ m) :
    m.find? (fun kv => kv.1 == k) = some (k, v) := by
  induction m with
  | nil => cases hmem
  | cons kv m ih =>
    simp only [List.map_cons, List.nodup_cons, List.mem_map] at hnd
    rcases List.mem_cons.mp hmem with h | h
    · subst h
      simp [List.find?_cons]
    · have hk : ¬(kv.1 == k) = true := by
        intro hbeq
        exact hnd.1 ⟨(k, v), h, by simpa using (beq_iff_eq.mp hbeq).symm⟩
      simp only [List.find?_cons, hk]
      simp only [Bool.false_eq_true, if_false] at *
      exact ih hnd.2 h

theorem find?_eq_none_of_not_memKey {m : List (String × SecretT)} {k : String}
    (h : ∀ kv ∈ m, kv.1 ≠ k) :
    m.find? (fun kv => kv.1 == k) = none := by
  rw [List.find?_eq_none]
  intro kv hkv
  simpa using h kv hkv

theorem mapInsert_keys_nodup {m : List (String × SecretT)} {k : String} {v : SecretT}
    (hnd : (m.map Prod.fst).Nodup) :
    ((mapInsert m k v).map Prod.fst).Nodup := by
  unfold mapInsert
  rw [List.map_append, List.nodup_append]
  refine ⟨(List.Nodup.sublist ((List.filter_sublist m).map Prod.fst) hnd), by simp, ?_⟩
  intro x hx
  simp only [List.map_cons, List.map_nil, List.mem_singleton]
  intro hxk
  subst hxk
  rcases List.mem_map.mp hx with ⟨kv, hkv, hfst⟩
  have := List.of_mem_filter hkv
  simp only [decide_not, Bool.not_eq_true', decide_eq_false_iff_not] at this
  exact this (by simpa using hfst)

theorem parseSecrets_keys_nodup (secrets : List SecretT) :
    ((parseSecrets secrets).map Prod.fst).Nodup := by
  unfold parseSecrets
  suffices h : ∀ (m : List (String × SecretT)), (m.map Prod.fst).Nodup →
      ((secrets.foldl (fun m secret =>
        mapInsert m (secret.dataGet apiKeySelector) secret) m).map Prod.fst).Nodup by
    exact h [] (by simp)
  induction secrets with
  | nil => intro m hm; exact hm
  | cons s ss ih =>
    intro m hm
    exact ih _ (mapInsert_keys_nodup hm)

/-- Claim C3: when the extracted credential equals the api_key datum of
some authorized secret, Call returns exactly that secret; when it matches
no authorized secret, and in particular when the construction-time fetch
failed and the set is empty, Call returns the invalid-API-key error. -/
theorem c3_apikey_call (name : String) (labelSelectors : List (String × String))
    (nspace : String) (authCred : AuthCredential) (cred : String) :
    (∀ (secrets : List SecretT) (s : SecretT),
      (cred, s) ∈ parseSecrets secrets →
      APIKeyCall (NewApiKeyIdentity name labelSelectors nspace authCred (.ok secrets))
        (.ok cred) = .ok s)
    ∧ (∀ (secrets : List SecretT),
      cred ∉ (parseSecrets secrets).map Prod.fst →
      APIKeyCall (NewApiKeyIdentity name labelSelectors nspace authCred (.ok secrets))
        (.ok cred) = .error invalidApiKeyMsg)
    ∧ (∀ (e : GoError),
      APIKeyCall (NewApiKeyIdentity name labelSelectors nspace authCred (.error e))
        (.ok cred) = .error invalidApiKeyMsg) := by
  refine ⟨?_, ?_, ?_⟩
  · intro secrets s hmem
    unfold APIKeyCall NewApiKeyIdentity
    simp only
    rw [find?_eq_some_of_mem_of_nodupKeys (parseSecrets_keys_nodup secrets) hmem]
  · intro secrets hnot
    unfold APIKeyCall NewApiKeyIdentity
    simp only
    rw [find?_eq_none_of_not_memKey]
    intro kv hkv hk
    exact hnot (List.mem_map.mpr ⟨kv, hkv, hk⟩)
  · intro e
    rfl

/-- A secret carrying the api_key datum k1. -/
def secretK1 : SecretT :=
  { nspace := "authorino", name := "api-key-1", data := [("api_key", "k1")] }

/-- Witness for C3: with one authorized secret holding k1, the matching
request credential returns that secret, a non-matching one and a failed
fetch return the invalid-API-key error. -/
theorem c3_apikey_call_witness :
    ("k1", secretK1) ∈ parseSecrets [secretK1]
    ∧ APIKeyCall (NewApiKeyIdentity "svc" [] "authorino"
        { keySelector := "APIKEY", location := "authorization_header" }
        (.ok [secretK1])) (.ok "k1") = .ok secretK1
    ∧ APIKeyCall (NewApiKeyIdentity "svc" [] "authorino"
        { keySelector := "APIKEY", location := "authorization_header" }
        (.ok [secretK1])) (.ok "wrong") = .error invalidApiKeyMsg
    ∧ APIKeyCall (NewApiKeyIdentity "svc" [] "authorino"
        { keySelector := "APIKEY", location := "authorization_header" }
        (.error "list forbidden")) (.ok "k1") = .error invalidApiKeyMsg := by
  refine ⟨by decide, ?_, ?_, ?_⟩
  · exact (c3_apikey_call "svc" [] "authorino"
      { keySelector := "APIKEY", location := "authorization_header" } "k1").1
      [secretK1] secretK1 (by decide)
  · exact ((c3_apikey_call "svc" [] "authorino"
      { keySelector := "APIKEY", location := "authorization_header" } "wrong").2).1
      [secretK1] (by decide)
  · exact ((c3_apikey_call "svc" [] "authorino"
      { keySelector := "APIKEY", location := "authorization_header" } "k1").2).2
      "list forbidden"

/-! ## Translated runtime configuration (pkg/config), as built by
translateAuthConfig -/

/-- common.JSONValue: a static value or a selector pattern. -/
structure JSONValue where
  static : String
  pattern : String
deriving DecidableEq

/-- common.JSONProperty. -/
structure JSONProperty where
  name : String
  value : JSONValue
deriving DecidableEq

/-- The translated OIDC identity configuration
(NewOIDC arguments: endpoint, credentials, TTL). -/
structure OIDCEval where
  endpoint : String
  creds : AuthCredential
  ttl : Int
deriving DecidableEq

/-- The evaluator payload of a translated identity config: exactly one of
the kind-specific fields of config.IdentityConfig is set by the
translation. -/
inductive IdentityEval where
  | oauth2 (tokenIntrospectionUrl : String) (tokenTypeHint : String)
      (clientID : String) (clientSecret : String) (creds : AuthCredential)
  | oidc (cfg : OIDCEval)
  | apiKey (name : String) (labelSelectors : List (String × String))
      (nspace : String) (creds : AuthCredential)
  | kubernetesAuth (creds : AuthCredential) (audiences : List String)
  | noop (creds : AuthCredential)
deriving DecidableEq

/-- config.IdentityConfig after translation. -/
structure IdentityConfig where
  name : String
  priority : Int
  conditions : List JSONPatternMatchingRule
  extendedProperties : List JSONProperty
  metrics : Bool
  eval : IdentityEval
deriving DecidableEq

/-- The OIDC field of an identity config: set exactly when the identity
is of the OIDC kind (nil otherwise), as read by the UserInfo
translation. -/
def IdentityConfig.OIDC (ic : IdentityConfig) : Option OIDCEval :=
  match ic.eval with
  | .oidc cfg => some cfg
  | _ => none

/-- The evaluator payload of a translated metadata config. -/
inductive MetadataEval where
  | uma (endpoint : String) (clientID : String) (clientSecret : String)
  | userInfo (oidc : Option OIDCEval)
  | genericHTTP (endpoint : String) (method : String)
      (parameters : List JSONProperty) (headers : List JSONProperty)
      (contentType : String) (sharedSecret : String) (creds : AuthCredential)
deriving DecidableEq

/-- config.MetadataConfig after translation. -/
structure MetadataConfig where
  name : String
  priority : Int
  conditions : List JSONPatternMatchingRule
  metrics : Bool
  eval : MetadataEval
deriving DecidableEq

/-- authorization.OPAExternalSource after translation. -/
structure OPARegistrySource where
  endpoint : String
  sharedSecret : String
  creds : AuthCredential
  ttl : Int
deriving DecidableEq

/-- The translated KubernetesAuthz resource attributes. -/
structure K8sResourceAttributesT where
  nspace : JSONValue
  group : JSONValue
  resource : JSONValue
  name : JSONValue
  subResource : JSONValue
  verb : JSONValue
deriving DecidableEq

/-- The evaluator payload of a translated authorization config. -/
inductive AuthorizationEval where
  | opa (policyName : String) (inlineRego : String)
      (registrySource : OPARegistrySource) (allValues : Bool) (index : Nat)
  | json (rules : List JSONPatternMatchingRule)
  | kubernetesAuthz (user : JSONValue) (groups : List String)
      (resourceAttributes : Option K8sResourceAttributesT)
deriving DecidableEq

/-- config.AuthorizationConfig after translation. -/
structure AuthorizationConfig where
  name : String
  priority : Int
  conditions : List JSONPatternMatchingRule
  metrics : Bool
  eval : AuthorizationEval
deriving DecidableEq

/-- A wristband signing key (NewSigningKey arguments: reference name,
algorithm, PEM bytes from the key.pem datum). -/
structure SigningKeyT where
  name : String
  algorithm : String
  pem : String
deriving DecidableEq

/-- The evaluator payload of a translated response config. -/
inductive ResponseEval where
  | wristband (issuer : String) (customClaims : List JSONProperty)
      (tokenDuration : Int) (signingKeys : List SigningKeyT)
  | dynamicJSON (properties : List JSONProperty)
deriving DecidableEq

/-- config.ResponseConfig after translation (NewResponseConfig plus the
kind payload). -/
structure ResponseConfig where
  name : String
  priority : Int
  conditions : List JSONPatternMatchingRule
  wrapper : String
  wrapperKey : String
  metrics : Bool
  eval : ResponseEval
deriving DecidableEq

/-- service.DenyWithValues as built by buildAuthorinoDenyWithValues. -/
structure DenyWithValues where
  code : Int
  message : String
  headers : List JSONProperty
deriving DecidableEq

/-- service.APIConfig: the translated per-host bundle. -/
structure APIConfigT where
  conditions : List JSONPatternMatchingRule
  identityConfigs : List IdentityConfig
  metadataConfigs : List MetadataConfig
  authorizationConfigs : List AuthorizationConfig
  responseConfigs : List ResponseConfig
  labels : List (String × String)
  unauthenticated : Option DenyWithValues
  unauthorized : Option DenyWithValues
deriving DecidableEq

/-- A reference to one evaluator of an APIConfig, tagged by phase, used
to count Clean invocations. -/
inductive EvaluatorRef where
  | identity (c : IdentityConfig)
  | metadata (c : MetadataConfig)
  | authorization (c : AuthorizationConfig)
  | response (c : ResponseConfig)
deriving DecidableEq

/-- Modelled from the spec: service.APIConfig.Clean (pkg/service is not
among the sources) calls Clean on every evaluator of the config; the
returned list records, in order, the evaluators whose Clean is
invoked. -/
def APIConfigT.cleanTargets (cfg : APIConfigT) : List EvaluatorRef :=
  cfg.identityConfigs.map EvaluatorRef.identity
    ++ cfg.metadataConfigs.map EvaluatorRef.metadata
    ++ cfg.authorizationConfigs.map EvaluatorRef.authorization
    ++ cfg.responseConfigs.map EvaluatorRef.response

/-! ## The reconciler (controllers/auth_config_controller.go) -/

/-- The cluster as seen through the controller-runtime client: the
secrets fetchable by (namespace, name). -/
structure Cluster where
  secrets : List ((String × String) × SecretT)
deriving DecidableEq

/-- r.Client.Get of a v1.Secret by namespaced name. -/
def Cluster.getSecret (cluster : Cluster) (nspace : String) (name : String) :
    Option SecretT :=
  (cluster.secrets.find? (fun kv => kv.1 == (nspace, name))).map (fun kv => kv.2)

/-- The AuthConfigReconciler options the claims depend on. -/
structure AuthConfigReconciler where
  nspace : String
deriving DecidableEq

/-- AuthConfigReconciler.ClusterWide (auth_config_controller.go:490-492):
true exactly when the Namespace option is empty. -/
def ClusterWide (r : AuthConfigReconciler) : Bool :=
  r.nspace == ""

/-- The namespace passed to NewApiKeyIdentity
(auth_config_controller.go:180-185): the AuthConfig namespace, emptied
exactly when the identity sets AllNamespaces and the reconciler is
cluster-wide. -/
def apiKeyLookupNamespace (r : AuthConfigReconciler) (allNamespaces : Bool)
    (authConfigNamespace : String) : String :=
  if allNamespaces && ClusterWide r then "" else authConfigNamespace

/-- findIdentityConfigByName (auth_config_controller.go:500-507). -/
def findIdentityConfigByName (identityConfigs : List IdentityConfig)
    (name : String) : Except GoError IdentityConfig :=
  match identityConfigs.find? (fun id => id.name == name) with
  | some id => .ok id
  | none => .error ("missing identity config " ++ name)

/-- The message of a failed secret fetch, standing for the error
propagated from r.Client.Get. -/
def secretNotFoundMsg (nspace : String) (name : String) : GoError :=
  "secrets " ++ nspace ++ "/" ++ name ++ " not found"

/-- Secret fetch as done at translate time: the error of the client is
propagated when the secret is missing. -/
def fetchSecret (cluster : Cluster) (nspace : String) (name : String) :
    Except GoError SecretT :=
  match cluster.getSecret nspace name with
  | some secret => .ok secret
  | none => .error (secretNotFoundMsg nspace name)

/-- The identity loop body of translateAuthConfig
(auth_config_controller.go:132-204).  External evaluator constructors
that cannot fail on the inputs the controller passes
(NewKubernetesAuthIdentity and the like, outside the sources) are
modelled as plain record constructions. -/
def translateIdentity (r : AuthConfigReconciler) (cluster : Cluster)
    (ac : AuthConfigS) (identity : IdentityS) : Except GoError IdentityConfig := do
  let extendedProperties := identity.extendedProperties.map
    (fun p => ({ name := p.name,
                 value := { static := p.value, pattern := p.valueFromAuthJSON } } : JSONProperty))
  let authCred : AuthCredential :=
    { keySelector := identity.credentials.keySelector,
      location := identity.credentials.location }
  let eval ← match identity.variant with
    | .oauth2 url hint credName => do
      let secret ← fetchSecret cluster ac.nspace credName
      pure (IdentityEval.oauth2 url hint
        (secret.dataGet "clientID") (secret.dataGet "clientSecret") authCred)
    | .oidc endpoint ttl =>
      pure (IdentityEval.oidc { endpoint := endpoint, creds := authCred, ttl := ttl })
    | .apiKey labelSelectors allNamespaces =>
      pure (IdentityEval.apiKey identity.name labelSelectors
        (apiKeyLookupNamespace r allNamespaces ac.nspace) authCred)
    | .kubernetesAuth audiences =>
      pure (IdentityEval.kubernetesAuth authCred audiences)
    | .anonymous => pure (IdentityEval.noop authCred)
    | .unknown => .error ("unknown identity type " ++ identity.name)
  pure { name := identity.name, priority := identity.priority,
         conditions := buildJSONPatternExpressions ac identity.conditions,
         extendedProperties := extendedProperties,
         metrics := identity.metrics, eval := eval }

/-- The metadata loop body of translateAuthConfig
(auth_config_controller.go:208-302). -/
def translateMetadata (cluster : Cluster) (ac : AuthConfigS)
    (identityConfigs : List IdentityConfig) (metadata : MetadataS) :
    Except GoError MetadataConfig := do
  let eval ← match metadata.variant with
    | .uma endpoint credName => do
      let secret ← fetchSecret cluster ac.nspace credName
      pure (MetadataEval.uma endpoint
        (secret.dataGet "clientID") (secret.dataGet "clientSecret"))
    | .userInfo identitySource => do
      let idConfig ← findIdentityConfigByName identityConfigs identitySource
      pure (MetadataEval.userInfo idConfig.OIDC)
    | .genericHTTP endpoint method contentType sharedSecretRef parameters headers creds => do
      let sharedSecret ← match sharedSecretRef with
        | none => pure ""
        | some ref => do
          let secret ← fetchSecret cluster ac.nspace ref.name
          pure (secret.dataGet ref.key)
      pure (MetadataEval.genericHTTP endpoint method
        (parameters.map (fun p =>
          ({ name := p.name,
             value := { static := p.value, pattern := p.valueFromAuthJSON } } : JSONProperty)))
        (headers.map (fun h =>
          ({ name := h.name,
             value := { static := h.value, pattern := h.valueFromAuthJSON } } : JSONProperty)))
        contentType sharedSecret
        { keySelector := creds.keySelector, location := creds.location })
    | .unknown => .error ("unknown metadata type " ++ metadata.name)
  pure { name := metadata.name, priority := metadata.priority,
         conditions := buildJSONPatternExpressions ac metadata.conditions,
         metrics := metadata.metrics, eval := eval }

/-- The authorization loop body of translateAuthConfig
(auth_config_controller.go:307-381); `index` is the loop index passed to
NewOPAAuthorization. -/
def translateAuthorization (cluster : Cluster) (ac : AuthConfigS) (index : Nat)
    (authorization : AuthorizationS) : Except GoError AuthorizationConfig := do
  let eval ← match authorization.variant with
    | .opa inlineRego allValues registry => do
      let policyName := ac.nspace ++ "/" ++ ac.name ++ "/" ++ authorization.name
      let sharedSecret ← match registry.sharedSecret with
        | none => pure ""
        | some ref => do
          let secret ← fetchSecret cluster ac.nspace ref.name
          pure (secret.dataGet ref.key)
      let registrySource : OPARegistrySource :=
        { endpoint := registry.endpoint, sharedSecret := sharedSecret,
          creds := { keySelector := registry.credentials.keySelector,
                     location := registry.credentials.location },
          ttl := registry.ttl }
      pure (AuthorizationEval.opa policyName inlineRego registrySource allValues index)
    | .json rules =>
      pure (AuthorizationEval.json (buildJSONPatternExpressions ac rules))
    | .kubernetesAuthz user groups resourceAttributes =>
      let userValue : JSONValue := { static := user.value, pattern := user.authJSON }
      let attrs : Option K8sResourceAttributesT := resourceAttributes.map
        (fun ra =>
          { nspace := { static := ra.nspace.value, pattern := ra.nspace.authJSON },
            group := { static := ra.group.value, pattern := ra.group.authJSON },
            resource := { static := ra.resource.value, pattern := ra.resource.authJSON },
            name := { static := ra.name.value, pattern := ra.name.authJSON },
            subResource := { static := ra.subResource.value, pattern := ra.subResource.authJSON },
            verb := { static := ra.verb.value, pattern := ra.verb.authJSON } })
      pure (AuthorizationEval.kubernetesAuthz userValue groups attrs)
    | .unknown => .error ("unknown authorization type " ++ authorization.name)
  pure { name := authorization.name, priority := authorization.priority,
         conditions := buildJSONPatternExpressions ac authorization.conditions,
         metrics := authorization.metrics, eval := eval }

/-- The response loop body of translateAuthConfig
(auth_config_controller.go:385-465). -/
def translateResponse (cluster : Cluster) (ac : AuthConfigS)
    (response : ResponseS) : Except GoError ResponseConfig := do
  let eval ← match response.variant with
    | .wristband issuer customClaims tokenDuration signingKeyRefs => do
      let signingKeys ← signingKeyRefs.mapM (fun ref => do
        let secret ← fetchSecret cluster ac.nspace ref.name
        pure ({ name := ref.name, algorithm := ref.algorithm,
                pem := secret.dataGet "key.pem" } : SigningKeyT))
      pure (ResponseEval.wristband issuer
        (customClaims.map (fun c =>
          ({ name := c.name,
             value := { static := c.value, pattern := c.valueFromAuthJSON } } : JSONProperty)))
        tokenDuration signingKeys)
    | .dynamicJSON properties =>
      pure (ResponseEval.dynamicJSON
        (properties.map (fun p =>
          ({ name := p.name,
             value := { static := p.value, pattern := p.valueFromAuthJSON } } : JSONProperty))))
    | .unknown => .error ("unknown response type " ++ response.name)
  pure { name := response.name, priority := response.priority,
         conditions := buildJSONPatternExpressions ac response.conditions,
         wrapper := response.wrapper, wrapperKey := response.wrapperKey,
         metrics := response.metrics, eval := eval }

/-- buildAuthorinoDenyWithValues (auth_config_controller.go:533-548). -/
def buildAuthorinoDenyWithValues (denyWithSpec : Option DenyWithSpecS) :
    Option DenyWithValues :=
  match denyWithSpec with
  | none => none
  | some s => some
    { code := s.code, message := s.message,
      headers := s.headers.map (fun h =>
        ({ name := h.name,
           value := { static := h.value, pattern := h.valueFromAuthJSON } } : JSONProperty)) }

/-- translateAuthConfig (auth_config_controller.go:125-488): the four
phase loops (any failure aborts with that error), then the APIConfig
assembly with labels and denyWith. -/
def translateAuthConfig (r : AuthConfigReconciler) (cluster : Cluster)
    (ac : AuthConfigS) : Except GoError APIConfigT := do
  let identityConfigs ← ac.spec.identity.mapM (translateIdentity r cluster ac)
  let metadataConfigs ← ac.spec.metadata.mapM (translateMetadata cluster ac identityConfigs)
  let authorizationConfigs ← ac.spec.authorization.enum.mapM
    (fun ia => translateAuthorization cluster ac ia.1 ia.2)
  let responseConfigs ← ac.spec.response.mapM (translateResponse cluster ac)
  let apiConfig : APIConfigT :=
    { conditions := buildJSONPatternExpressions ac ac.spec.conditions,
      identityConfigs := identityConfigs,
      metadataConfigs := metadataConfigs,
      authorizationConfigs := authorizationConfigs,
      responseConfigs := responseConfigs,
      labels := [("namespace", ac.nspace), ("name", ac.name)],
      unauthenticated :=
        match ac.spec.denyWith with
        | none => none
        | some d => buildAuthorinoDenyWithValues d.unauthenticated,
      unauthorized :=
        match ac.spec.denyWith with
        | none => none
        | some d => buildAuthorinoDenyWithValues d.unauthorized }
  pure apiConfig

/-! ## The host index (pkg/cache), modelled from the spec -/

/-- One binding of the host index: host, owning configId and the
APIConfig installed for it. -/
structure CacheEntry where
  host : String
  configId : String
  config : APIConfigT
deriving DecidableEq

/-- The host index state: the host bindings (hosts are unique among the
entries built through the operations below). -/
abbrev CacheState := List CacheEntry

/-- The namespace component of a configId: index 0 of
strings.Split(cachedKey, types.Separator), that is, the prefix before the
first separator character, as in the collision check of Reconcile
(auth_config_controller.go:98). -/
def nsPart (configId : String) : String :=
  String.mk (configId.data.takeWhile (fun ch => ch != '/'))

namespace Cache

/-- Modelled from the spec: Cache.FindId (pkg/cache is not among the
sources) returns the configId the host is bound to, when any. -/
def findId : CacheState → String → Option String
  | [], _ => none
  | e :: c, host => if e.host == host then some e.configId else findId c host

/-- Modelled from the spec: Cache.Get returns the APIConfig bound to the
host, when any. -/
def get : CacheState → String → Option APIConfigT
  | [], _ => none
  | e :: c, host => if e.host == host then some e.config else get c host

/-- Modelled from the spec: Cache.FindKeys returns all hosts bound to a
configId. -/
def findKeys (c : CacheState) (configId : String) : List String :=
  (c.filter (fun e => e.configId == configId)).map (fun e => e.host)

/-- Replacement of the binding of a host. -/
def replaceEntry (c : CacheState) (host : String) (configId : String)
    (config : APIConfigT) : CacheState :=
  c.map (fun e => if e.host == host then ⟨host, configId, config⟩ else e)

/-- Modelled from the spec: Cache.Set installs a host binding; when the
host is already bound to a different configId it fails with the
host-taken error unless override is set and the namespace component of
the existing binding matches; within a namespace the newer binding
supersedes the older. -/
def set (c : CacheState) (configId : String) (host : String)
    (config : APIConfigT) (override : Bool) : Except GoError CacheState :=
  match findId c host with
  | none => .ok (c ++ [⟨host, configId, config⟩])
  | some existingId =>
    if existingId == configId then
      .ok (replaceEntry c host configId config)
    else if override && (nsPart existingId == nsPart configId) then
      .ok (replaceEntry c host configId config)
    else
      .error "host already taken"

/-- Modelled from the spec: Cache.Delete removes all host bindings of the
configId.  The Clean invocation the spec attributes to deletion is
performed by the reconciler, whose cleanConfigs call immediately precedes
every Delete (auth_config_controller.go:75-80); Delete itself only drops
the bindings. -/
def delete (c : CacheState) (configId : String) : CacheState :=
  c.filter (fun e => ¬(e.configId == configId))

end Cache

/-- AuthConfigReconciler.cleanConfigs (auth_config_controller.go:115-123):
when the configId has bound hosts, Clean is called on the config bound to
the first of them (the config is the same for all); the returned list
records the evaluators cleaned. -/
def cleanConfigs (c : CacheState) (cacheId : String) : List EvaluatorRef :=
  match Cache.findKeys c cacheId with
  | [] => []
  | host :: _ =>
    match Cache.get c host with
    | some authConfig => authConfig.cleanTargets
    | none => []

/-- The collision test of the reconciliation loop
(auth_config_controller.go:97-102): the host is bound and the namespace
component of the cached configId differs from the request namespace. -/
def collides (reqNs : String) (c : CacheState) (host : String) : Bool :=
  match Cache.findId c host with
  | some cachedKey => nsPart cachedKey != reqNs
  | none => false

/-- The host loop of Reconcile (auth_config_controller.go:95-107),
iterating the translated host-to-config map in the order `hosts`: a
collision with another namespace returns a nil error at once; otherwise
the binding is installed with override, a Set error being returned. -/
def reconcileLoop (reqNs : String) (cacheId : String) (apiConfig : APIConfigT) :
    List String → CacheState → CacheState × Option GoError
  | [], c => (c, none)
  | host :: rest, c =>
    if collides reqNs c host then
      (c, none)
    else
      match Cache.set c cacheId host apiConfig true with
      | .error e => (c, some e)
      | .ok c' => reconcileLoop reqNs cacheId apiConfig rest c'

/-- The cacheId of a request: req.String(), namespace and name joined by
the types.Separator. -/
def cacheIdOf (reqNs : String) (reqName : String) : String :=
  reqNs ++ "/" ++ reqName

/-- The outcome of one reconciliation: the resulting host index, the
evaluators whose Clean was invoked, and the returned error. -/
structure ReconcileOutcome where
  cache : CacheState
  cleaned : List EvaluatorRef
  error : Option GoError
deriving DecidableEq

/-- The found-and-watched branch of Reconcile
(auth_config_controller.go:81-108): cleanConfigs, then translation (a
translation error is returned as is), then the host loop.  `hostOrder` is
the order in which the Go range visits the translated host map (Go map
iteration order is unspecified). -/
def reconcileFound (r : AuthConfigReconciler) (cluster : Cluster)
    (reqNs : String) (reqName : String) (ac : AuthConfigS)
    (hostOrder : List String) (c : CacheState) : ReconcileOutcome :=
  let cacheId := cacheIdOf reqNs reqName
  let cleaned := cleanConfigs c cacheId
  match translateAuthConfig r cluster ac with
  | .error e => { cache := c, cleaned := cleaned, error := some e }
  | .ok apiConfig =>
    let r := reconcileLoop reqNs cacheId apiConfig hostOrder c
    { cache := r.1, cleaned := cleaned, error := r.2 }

/-- The not-found-or-unwatched branch of Reconcile
(auth_config_controller.go:70-80): cleanConfigs, then deletion of the
bindings; a nil error is returned. -/
def reconcileAbsent (reqNs : String) (reqName : String) (c : CacheState) :
    ReconcileOutcome :=
  let cacheId := cacheIdOf reqNs reqName
  { cache := Cache.delete c cacheId,
    cleaned := cleanConfigs c cacheId,
    error := none }

/-- The outcome of fetching the AuthConfig object at the start of
Reconcile: found and watched, absent (404 or missing the watched labels),
or a non-404 client error. -/
inductive FetchResult where
  | ok (ac : AuthConfigS)
  | notFound
  | failed (e : GoError)
deriving DecidableEq

/-- AuthConfigReconciler.Reconcile (auth_config_controller.go:62-113). -/
def Reconcile (r : AuthConfigReconciler) (cluster : Cluster)
    (reqNs : String) (reqName : String) (fetch : FetchResult)
    (hostOrder : List String) (c : CacheState) : ReconcileOutcome :=
  match fetch with
  | .failed e => { cache := c, cleaned := [], error := some e }
  | .notFound => reconcileAbsent reqNs reqName c
  | .ok ac => reconcileFound r cluster reqNs reqName ac hostOrder c

/-! ## Claims about the reconciler -/

/-- Claim C4: when translation fails, Reconcile returns that error,
installs no host binding, and every prior binding (in particular the
prior APIConfig of this configId) stays in place in the host index. -/
theorem c4_translate_failure_preserves_cache (r : AuthConfigReconciler)
    (cluster : Cluster) (reqNs : String) (reqName : String) (ac : AuthConfigS)
    (hostOrder : List String) (c : CacheState) (e : GoError)
    (htr : translateAuthConfig r cluster ac = .error e) :
    (Reconcile r cluster reqNs reqName (.ok ac) hostOrder c).cache = c
    ∧ (Reconcile r cluster reqNs reqName (.ok ac) hostOrder c).error = some e
    ∧ ∀ host, Cache.get (Reconcile r cluster reqNs reqName (.ok ac) hostOrder c).cache host
        = Cache.get c host := by
  simp [Reconcile, reconcileFound, htr]

/-- A metadata evaluator of the UserInfo kind naming an identity that
does not exist. -/
def userInfoDangling : MetadataS :=
  { name := "userinfo", priority := 0, conditions := [], metrics := false,
    variant := MetadataVariant.userInfo "missing-id" }

/-- An AuthConfig whose translation fails on the dangling UserInfo
identity source. -/
def acDangling : AuthConfigS :=
  { nspace := "ns1", name := "cfg1",
    spec := { hosts := ["svc.example.com"], patterns := [], conditions := [],
              identity := [], metadata := [userInfoDangling],
              authorization := [], response := [], denyWith := none } }

/-- A cache holding a prior binding of the same configId. -/
def cachePriorNs1 : CacheState :=
  [⟨"svc.example.com", "ns1/cfg1",
    ⟨[], [], [], [], [], [("namespace", "ns1"), ("name", "cfg1")], none, none⟩⟩]

/-- Witness for C4: a UserInfo metadata evaluator naming a missing
identity fails the translation, the error is returned, and the prior
binding of the configId is untouched. -/
theorem c4_translate_failure_witness :
    translateAuthConfig ⟨""⟩ ⟨[]⟩ acDangling
      = .error "missing identity config missing-id"
    ∧ ((Reconcile ⟨""⟩ ⟨[]⟩ "ns1" "cfg1" (.ok acDangling) ["svc.example.com"]
          cachePriorNs1).cache = cachePriorNs1
      ∧ (Reconcile ⟨""⟩ ⟨[]⟩ "ns1" "cfg1" (.ok acDangling) ["svc.example.com"]
          cachePriorNs1).error = some "missing identity config missing-id"
      ∧ ∀ host, Cache.get (Reconcile ⟨""⟩ ⟨[]⟩ "ns1" "cfg1" (.ok acDangling)
          ["svc.example.com"] cachePriorNs1).cache host
          = Cache.get cachePriorNs1 host) :=
  ⟨by rfl,
   c4_translate_failure_preserves_cache ⟨""⟩ ⟨[]⟩ "ns1" "cfg1" acDangling
     ["svc.example.com"] cachePriorNs1 "missing identity config missing-id"
     (by rfl)⟩

/-- Claim C5: on every replacement (same configId reconciled again, with
any translation outcome) and on every deletion (AuthConfig absent or
unwatched), Clean is invoked exactly once on each evaluator of the
displaced APIConfig, also when the configId is bound to several hosts. -/
theorem c5_clean_exactly_once (c : CacheState) (reqNs : String) (reqName : String)
    (host : String) (hs : List String) (displaced : APIConfigT)
    (r : AuthConfigReconciler) (cluster : Cluster) (ac : AuthConfigS)
    (hostOrder : List String)
    (hkeys : Cache.findKeys c (cacheIdOf reqNs reqName) = host :: hs)
    (hget : Cache.get c host = some displaced)
    (hnd : displaced.cleanTargets.Nodup) :
    ∀ e ∈ displaced.cleanTargets,
      (Reconcile r cluster reqNs reqName (.ok ac) hostOrder c).cleaned.count e = 1
      ∧ (Reconcile r cluster reqNs reqName .notFound hostOrder c).cleaned.count e = 1 := by
  intro e he
  have hclean : cleanConfigs c (cacheIdOf reqNs reqName) = displaced.cleanTargets := by
    simp [cleanConfigs, hkeys, hget]
  have hcount : displaced.cleanTargets.count e = 1 :=
    List.count_eq_one_of_mem hnd he
  constructor
  · have : (Reconcile r cluster reqNs reqName (.ok ac) hostOrder c).cleaned
        = cleanConfigs c (cacheIdOf reqNs reqName) := by
      cases htr : translateAuthConfig r cluster ac <;>
        simp [Reconcile, reconcileFound, htr]
    rw [this, hclean]
    exact hcount
  · show (reconcileAbsent reqNs reqName c).cleaned.count e = 1
    unfold reconcileAbsent
    simp only
    rw [hclean]
    exact hcount

/-- A displaced APIConfig with one evaluator per phase. -/
def displacedConfig : APIConfigT :=
  { conditions := [],
    identityConfigs :=
      [{ name := "id1", priority := 0, conditions := [],
         extendedProperties := [], metrics := false,
         eval := IdentityEval.noop
           { keySelector := "Bearer", location := "authorization_header" } }],
    metadataConfigs := [],
    authorizationConfigs :=
      [{ name := "authz1", priority := 0, conditions := [],
         metrics := false, eval := AuthorizationEval.json [] }],
    responseConfigs := [],
    labels := [("namespace", "ns2"), ("name", "cfg2")],
    unauthenticated := none, unauthorized := none }

/-- A cache binding the displaced config to two hosts of the same
configId. -/
def cacheTwoHosts : CacheState :=
  [⟨"a.example.com", "ns2/cfg2", displacedConfig⟩,
   ⟨"b.example.com", "ns2/cfg2", displacedConfig⟩]

/-- Witness for C5: with the displaced config bound to two hosts, each of
its evaluators is cleaned exactly once, in the replacement flow and in
the deletion flow. -/
theorem c5_clean_exactly_once_witness :
    (Cache.findKeys cacheTwoHosts (cacheIdOf "ns2" "cfg2")
        = "a.example.com" :: ["b.example.com"]
      ∧ Cache.get cacheTwoHosts "a.example.com" = some displacedConfig
      ∧ displacedConfig.cleanTargets.Nodup)
    ∧ ∀ e ∈ displacedConfig.cleanTargets,
      (Reconcile ⟨""⟩ ⟨[]⟩ "ns2" "cfg2" (.ok acDangling) [] cacheTwoHosts).cleaned.count e = 1
      ∧ (Reconcile ⟨""⟩ ⟨[]⟩ "ns2" "cfg2" .notFound [] cacheTwoHosts).cleaned.count e = 1 :=
  ⟨⟨by decide, by decide, by decide⟩,
   c5_clean_exactly_once cacheTwoHosts "ns2" "cfg2" "a.example.com"
     ["b.example.com"] displacedConfig ⟨""⟩ ⟨[]⟩ acDangling []
     (by decide) (by decide) (by decide)⟩

/-- Claim C7: the API-key cluster secret lookup spans all namespaces
exactly when the identity sets AllNamespaces and the reconciler runs
cluster-wide (empty Namespace option); otherwise it is restricted to the
namespace of the AuthConfig (assumed non-empty, as Kubernetes guarantees
for namespaced objects). -/
theorem c7_apikey_namespace_scope (r : AuthConfigReconciler)
    (allNamespaces : Bool) (cfgNs : String) (hns : cfgNs ≠ "") :
    (inNamespaceOpt (apiKeyLookupNamespace r allNamespaces cfgNs) = none
      ↔ (allNamespaces = true ∧ r.nspace = ""))
    ∧ (¬(allNamespaces = true ∧ r.nspace = "") →
        inNamespaceOpt (apiKeyLookupNamespace r allNamespaces cfgNs) = some cfgNs) := by
  unfold inNamespaceOpt apiKeyLookupNamespace ClusterWide
  by_cases hr : r.nspace = ""
  · cases allNamespaces <;> simp [hr, hns]
  · cases allNamespaces <;> simp [hr, hns]

/-- Witness for C7: a cluster-wide reconciler with AllNamespaces gives an
unrestricted lookup; a namespaced reconciler restricts the lookup to the
AuthConfig namespace. -/
theorem c7_apikey_namespace_scope_witness :
    ("team-a" ≠ ""
      ∧ (inNamespaceOpt (apiKeyLookupNamespace ⟨""⟩ true "team-a") = none
          ↔ (true = true ∧ (⟨""⟩ : AuthConfigReconciler).nspace = "")))
    ∧ (¬(true = true ∧ (⟨"watched-ns"⟩ : AuthConfigReconciler).nspace = "") →
        inNamespaceOpt (apiKeyLookupNamespace ⟨"watched-ns"⟩ true "team-a")
          = some "team-a") :=
  ⟨⟨by decide, (c7_apikey_namespace_scope ⟨""⟩ true "team-a" (by decide)).1⟩,
   (c7_apikey_namespace_scope ⟨"watched-ns"⟩ true "team-a" (by decide)).2⟩



/-! ## Claim C1: host collision across namespaces -/

theorem findId_append_of_none {c : CacheState} {host : String}
    (configId : String) (config : APIConfigT)
    (h : Cache.findId c host = none) (x : String) :
    Cache.findId (c ++ [⟨host, configId, config⟩]) x
      = if x = host then some configId else Cache.findId c x := by
  induction c with
  | nil =>
    by_cases hx : x = host
    · simp [Cache.findId, hx]
    · have hb : (host == x) = false := by
        simpa [beq_iff_eq] using fun heq => hx heq.symm
      simp [Cache.findId, hb, hx]
  | cons e c ih =>
    have he : (e.host == host) = false := by
      by_contra hbeq
      simp only [Bool.not_eq_false] at hbeq
      simp [Cache.findId, hbeq] at h
    have hc : Cache.findId c host = none := by
      simpa [Cache.findId, he] using h
    by_cases hex : (e.host == x) = true
    · have hxh : ¬x = host := by
        intro hxh
        rw [hxh] at hex
        rw [hex] at he
        cases he
      simp [Cache.findId, hex, hxh]
    · simp only [Bool.not_eq_true] at hex
      have hstep : Cache.findId (e :: c ++ [⟨host, configId, config⟩]) x
          = Cache.findId (c ++ [⟨host, configId, config⟩]) x := by
        simp [Cache.findId, hex]
      have hstep2 : Cache.findId (e :: c) x = Cache.findId c x := by
        simp [Cache.findId, hex]
      rw [hstep, ih hc, hstep2]

theorem findId_replaceEntry_ne {c : CacheState} {host : String}
    (configId : String) (config : APIConfigT) {x : String} (hx : x ≠ host) :
    Cache.findId (Cache.replaceEntry c host configId config) x
      = Cache.findId c x := by
  induction c with
  | nil => rfl
  | cons e c ih =>
    simp only [Cache.replaceEntry, List.map_cons] at *
    by_cases heh : (e.host == host) = true
    · have hhx : (host == x) = false := by
        simpa [beq_iff_eq] using fun heq => hx heq.symm
      have hex : (e.host == x) = false := by
        rw [beq_iff_eq.mp heh]
        exact hhx
      simp only [Cache.findId, heh, if_pos, hhx, hex]
      exact ih
    · simp only [Bool.not_eq_true] at heh
      simp only [Cache.findId, heh, Bool.false_eq_true, if_neg, not_false_eq_true]
      by_cases hex : (e.host == x) = true
      · simp [Cache.findId, hex]
      · simp only [Bool.not_eq_true] at hex
        simp only [Cache.findId, hex, Bool.false_eq_true, if_neg, not_false_eq_true]
        exact ih

theorem findId_replaceEntry_self {c : CacheState} {host : String}
    (configId : String) (config : APIConfigT)
    (h : (Cache.findId c host).isSome) :
    Cache.findId (Cache.replaceEntry c host configId config) host
      = some configId := by
  induction c with
  | nil => simp [Cache.findId] at h
  | cons e c ih =>
    simp only [Cache.replaceEntry, List.map_cons] at *
    by_cases heh : (e.host == host) = true
    · simp [Cache.findId, heh]
    · simp only [Bool.not_eq_true] at heh
      have h' : (Cache.findId c host).isSome := by
        simpa [Cache.findId, heh] using h
      simp only [Cache.findId, heh, Bool.false_eq_true, if_neg, not_false_eq_true]
      exact ih h'

/-- A successful Set under override for a non-colliding host: the host
binding becomes the new configId and no other binding changes. -/
theorem set_ok_of_not_collides {reqNs cacheId : String} {c : CacheState}
    {host : String} (config : APIConfigT)
    (hns : nsPart cacheId = reqNs)
    (hnc : collides reqNs c host = false) :
    ∃ c', Cache.set c cacheId host config true = .ok c'
      ∧ ∀ x, Cache.findId c' x
          = if x = host then some cacheId else Cache.findId c x := by
  unfold Cache.set
  cases hfi : Cache.findId c host with
  | none =>
    exact ⟨_, rfl, findId_append_of_none cacheId config hfi⟩
  | some existingId =>
    have hnseq : nsPart existingId = reqNs := by
      simp [collides, hfi, bne_iff_ne] at hnc
      exact hnc
    have hsome : (Cache.findId c host).isSome := by simp [hfi]
    have hrepl : ∀ x, Cache.findId (Cache.replaceEntry c host cacheId config) x
        = if x = host then some cacheId else Cache.findId c x := by
      intro x
      by_cases hx : x = host
      · subst hx
        simp [findId_replaceEntry_self cacheId config hsome]
      · simp [findId_replaceEntry_ne cacheId config hx, hx]
    by_cases hid : (existingId == cacheId) = true
    · exact ⟨_, by simp [hid], hrepl⟩
    · have hnsb : (nsPart existingId == nsPart cacheId) = true := by
        rw [hns, hnseq]
        exact beq_self_eq_true reqNs
      refine ⟨_, ?_, hrepl⟩
      simp [hid, hnsb]

/-- The collision flag after a successful Set of a non-colliding host:
the newly bound host no longer collides and every other host keeps its
flag. -/
theorem collides_after_set {reqNs cacheId : String} {c c' : CacheState}
    {host : String}
    (hns : nsPart cacheId = reqNs)
    (hchar : ∀ x, Cache.findId c' x
      = if x = host then some cacheId else Cache.findId c x) (x : String) :
    collides reqNs c' x = if x = host then false else collides reqNs c x := by
  unfold collides
  rw [hchar x]
  by_cases hx : x = host
  · simp [hx, hns, bne_iff_ne]
  · simp [hx]

/-- The host loop on a host order whose first colliding host is `host`:
the loop stops there with a nil error, hosts before it are bound to the
reconciling configId, and every other binding, the colliding host
included, is unchanged. -/
theorem reconcileLoop_collision (reqNs cacheId : String) (config : APIConfigT)
    (pre : List String) (host : String) (post : List String) (c : CacheState)
    (hns : nsPart cacheId = reqNs)
    (hpre : ∀ x ∈ pre, collides reqNs c x = false)
    (hcol : collides reqNs c host = true) :
    (reconcileLoop reqNs cacheId config (pre ++ host :: post) c).2 = none
    ∧ (∀ x, x ∉ pre →
        Cache.findId (reconcileLoop reqNs cacheId config (pre ++ host :: post) c).1 x
          = Cache.findId c x)
    ∧ (∀ x ∈ pre,
        Cache.findId (reconcileLoop reqNs cacheId config (pre ++ host :: post) c).1 x
          = some cacheId) := by
  induction pre generalizing c with
  | nil =>
    simp [reconcileLoop, hcol]
  | cons p pre ih =>
    have hp : collides reqNs c p = false := hpre p (List.mem_cons_self p pre)
    obtain ⟨c₂, hset, hchar⟩ :=
      @set_ok_of_not_collides reqNs cacheId c p config hns hp
    have hph : p ≠ host := by
      intro hph
      rw [hph] at hp
      rw [hp] at hcol
      cases hcol
    have hpre₂ : ∀ x ∈ pre, collides reqNs c₂ x = false := by
      intro x hx
      rw [collides_after_set hns hchar x]
      by_cases hxp : x = p
      · simp [hxp]
      · simp [hxp, hpre x (List.mem_cons_of_mem p hx)]
    have hcol₂ : collides reqNs c₂ host = true := by
      rw [collides_after_set hns hchar host]
      simp [Ne.symm hph, hcol]
    have hloop : reconcileLoop reqNs cacheId config ((p :: pre) ++ host :: post) c
        = reconcileLoop reqNs cacheId config (pre ++ host :: post) c₂ := by
      simp [reconcileLoop, hp, hset]
    obtain ⟨iherr, ihout, ihin⟩ := ih c₂ hpre₂ hcol₂
    refine ⟨by rw [hloop]; exact iherr, ?_, ?_⟩
    · intro x hx
      have hxp : x ≠ p := by
        intro hxp
        exact hx (hxp ▸ List.mem_cons_self p pre)
      have hxpre : x ∉ pre := fun hmem => hx (List.mem_cons_of_mem p hmem)
      rw [hloop, ihout x hxpre, hchar x]
      simp [hxp]
    · intro x hx
      rcases List.mem_cons.mp hx with hxp | hxpre
      · subst hxp
        by_cases hxpre : x ∈ pre
        · rw [hloop]; exact ihin x hxpre
        · rw [hloop, ihout x hxpre, hchar x]
          simp
      · rw [hloop]; exact ihin x hxpre

/-- Claim C1, amended: when the iteration order of the translated host
map reaches a first host colliding with another namespace, Reconcile
returns a nil error, the existing binding of the colliding host (and of
every host not iterated before it) is left intact, but the hosts iterated
before the collision are bound to the reconciling AuthConfig. -/
theorem c1_host_collision_amended (r : AuthConfigReconciler) (cluster : Cluster)
    (reqNs : String) (reqName : String) (ac : AuthConfigS) (apiConfig : APIConfigT)
    (pre : List String) (host : String) (post : List String) (c : CacheState)
    (htr : translateAuthConfig r cluster ac = .ok apiConfig)
    (hns : nsPart (cacheIdOf reqNs reqName) = reqNs)
    (hpre : ∀ x ∈ pre, collides reqNs c x = false)
    (hcol : collides reqNs c host = true) :
    (Reconcile r cluster reqNs reqName (.ok ac) (pre ++ host :: post) c).error = none
    ∧ (∀ x, x ∉ pre →
        Cache.findId (Reconcile r cluster reqNs reqName (.ok ac)
          (pre ++ host :: post) c).cache x = Cache.findId c x)
    ∧ (∀ x ∈ pre,
        Cache.findId (Reconcile r cluster reqNs reqName (.ok ac)
          (pre ++ host :: post) c).cache x = some (cacheIdOf reqNs reqName)) := by
  obtain ⟨herr, hout, hin⟩ := reconcileLoop_collision reqNs (cacheIdOf reqNs reqName)
    apiConfig pre host post c hns hpre hcol
  exact ⟨by simpa [Reconcile, reconcileFound, htr] using herr,
    by simpa [Reconcile, reconcileFound, htr] using hout,
    by simpa [Reconcile, reconcileFound, htr] using hin⟩

/-- The APIConfig bound to foo.com by the tenant in namespace red. -/
def apiConfigRed : APIConfigT :=
  { conditions := [], identityConfigs := [], metadataConfigs := [],
    authorizationConfigs := [], responseConfigs := [],
    labels := [("namespace", "red"), ("name", "configA")],
    unauthenticated := none, unauthorized := none }

/-- A host index where foo.com is owned by red/configA. -/
def cacheRed : CacheState := [⟨"foo.com", "red/configA", apiConfigRed⟩]

/-- The AuthConfig of the blue tenant, claiming a free host and the
taken host foo.com. -/
def acBlue : AuthConfigS :=
  { nspace := "blue", name := "configB",
    spec := { hosts := ["free.com", "foo.com"], patterns := [], conditions := [],
              identity := [], metadata := [], authorization := [],
              response := [], denyWith := none } }

/-- The translation of acBlue. -/
def apiConfigBlue : APIConfigT :=
  { conditions := [], identityConfigs := [], metadataConfigs := [],
    authorizationConfigs := [], responseConfigs := [],
    labels := [("namespace", "blue"), ("name", "configB")],
    unauthenticated := none, unauthorized := none }

/-- Claim C1 as stated is false: reconciling blue/configB against a cache
where foo.com is owned by red/configA, with the host map iterated as
free.com then foo.com, leaves the foo.com binding intact and returns a
nil error, but the reconciling AuthConfig does obtain a binding for
free.com, contradicting that it obtains no binding for any of its
hosts. -/
theorem c1_host_collision_counterexample :
    (Reconcile ⟨""⟩ ⟨[]⟩ "blue" "configB" (.ok acBlue) ["free.com", "foo.com"]
        cacheRed).error = none
    ∧ Cache.findId (Reconcile ⟨""⟩ ⟨[]⟩ "blue" "configB" (.ok acBlue)
        ["free.com", "foo.com"] cacheRed).cache "free.com" = some "blue/configB"
    ∧ Cache.findId (Reconcile ⟨""⟩ ⟨[]⟩ "blue" "configB" (.ok acBlue)
        ["free.com", "foo.com"] cacheRed).cache "foo.com" = some "red/configA" := by
  refine ⟨?_, ?_, ?_⟩ <;> rfl

/-- Witness for the amended claim C1: at the concrete collision input,
the colliding host keeps its binding, the error is nil, and the host
iterated before the collision is bound to blue/configB. -/
theorem c1_host_collision_witness :
    (translateAuthConfig ⟨""⟩ ⟨[]⟩ acBlue = .ok apiConfigBlue
      ∧ nsPart (cacheIdOf "blue" "configB") = "blue"
      ∧ (∀ x ∈ ["free.com"], collides "blue" cacheRed x = false)
      ∧ collides "blue" cacheRed "foo.com" = true)
    ∧ ((Reconcile ⟨""⟩ ⟨[]⟩ "blue" "configB" (.ok acBlue)
          (["free.com"] ++ "foo.com" :: []) cacheRed).error = none
      ∧ (∀ x, x ∉ ["free.com"] →
          Cache.findId (Reconcile ⟨""⟩ ⟨[]⟩ "blue" "configB" (.ok acBlue)
            (["free.com"] ++ "foo.com" :: []) cacheRed).cache x
            = Cache.findId cacheRed x)
      ∧ (∀ x ∈ ["free.com"],
          Cache.findId (Reconcile ⟨""⟩ ⟨[]⟩ "blue" "configB" (.ok acBlue)
            (["free.com"] ++ "foo.com" :: []) cacheRed).cache x
            = some (cacheIdOf "blue" "configB"))) :=
  ⟨⟨by rfl, by rfl, by decide, by rfl⟩,
   c1_host_collision_amended ⟨""⟩ ⟨[]⟩ "blue" "configB" acBlue apiConfigBlue
     ["free.com"] "foo.com" [] cacheRed (by rfl) (by rfl) (by decide) (by rfl)⟩


/-! ## Deep copy of the declarative API (zz_generated.deepcopy.go)

The Go values are modelled with their mutable references explicit: every
slice, map and pointer is a `Cell` carrying the allocation id of the
backing store next to its contents (a nil slice, map or pointer is
`none`).  Two values share a mutable reference exactly when they contain
cells with the same id, and mutating through a reference of one value can
affect another value only through a shared id.  A deep-copy function
threads an allocation counter and draws every cell of the copy from it,
so the generated DeepCopyInto functions are faithful to the source once
fresh ids stand for fresh allocations.
-/

namespace DC

/-- A heap cell: the allocation id of a slice, map or pointer together
with its contents. -/
structure Cell (α : Type) where
  id : Nat
  val : α
deriving DecidableEq

/-- A Go pointer: nil or an allocated cell. -/
abbrev Ptr (α : Type) := Option (Cell α)

/-- A Go slice: nil or an allocated cell holding the elements. -/
abbrev Slice (α : Type) := Option (Cell (List α))

/-- A Go map with string keys: nil or an allocated cell holding the
entries. -/
abbrev MapR (α : Type) := Slice (String × α)

/-- The contract of a deep copy at one type: the allocation counter only
grows, every reference of the copy is drawn from the fresh ids consumed,
and erasing all ids leaves the value unchanged (structural equality). -/
def CopyOk (copy : Nat → α → Nat × α) (refs : α → List Nat) (zero : α → α) : Prop :=
  ∀ n a, n ≤ (copy n a).1
    ∧ (∀ i ∈ refs (copy n a).2, n ≤ i ∧ i < (copy n a).1)
    ∧ zero (copy n a).2 = zero a

/-- A deep-copier for one type: the copy function, the reference ids, the
id-erasure, and the proof of the contract. -/
structure Copier (α : Type) where
  copy : Nat → α → Nat × α
  refs : α → List Nat
  zero : α → α
  ok : CopyOk copy refs zero

def flatCopy : Nat → α → Nat × α := fun n a => (n, a)

def flatRefs : α → List Nat := fun _ => []

theorem flatCopyOk {α : Type} : CopyOk (flatCopy : Nat → α → Nat × α) flatRefs id := by
  intro n a
  refine ⟨Nat.le_refl n, ?_, rfl⟩
  intro i hi
  simp [flatRefs] at hi

/-- Copy of a reference-free value: plain Go assignment. -/
def flatC : Copier α := ⟨flatCopy, flatRefs, id, flatCopyOk⟩

def listCopy (c : Copier α) : Nat → List α → Nat × List α
  | n, [] => (n, [])
  | n, x :: xs =>
    let p := c.copy n x
    let q := listCopy c p.1 xs
    (q.1, p.2 :: q.2)

def listRefs (c : Copier α) : List α → List Nat
  | [] => []
  | x :: xs => c.refs x ++ listRefs c xs

def listZero (c : Copier α) (l : List α) : List α := l.map c.zero

theorem listCopyOk (c : Copier α) :
    CopyOk (listCopy c) (listRefs c) (listZero c) := by
  intro n l
  induction l generalizing n with
  | nil =>
    refine ⟨Nat.le_refl n, ?_, rfl⟩
    intro i hi
    simp [listCopy, listRefs] at hi
  | cons x xs ih =>
    obtain ⟨h1, h2, h3⟩ := c.ok n x
    obtain ⟨h1', h2', h3'⟩ := ih (c.copy n x).1
    refine ⟨Nat.le_trans h1 h1', ?_, ?_⟩
    · intro i hi
      simp only [listCopy, listRefs] at hi ⊢
      rcases List.mem_append.mp hi with h | h
      · exact ⟨(h2 i h).1, Nat.lt_of_lt_of_le (h2 i h).2 h1'⟩
      · exact ⟨Nat.le_trans h1 (h2' i h).1, (h2' i h).2⟩
    · simp only [listCopy, listZero, List.map_cons] at h3' ⊢
      rw [h3, h3']

/-- Per-element copy of a list (the loop bodies of the generated
code). -/
def listC (c : Copier α) : Copier (List α) :=
  ⟨listCopy c, listRefs c, listZero c, listCopyOk c⟩

def sliceCopy (c : Copier α) : Nat → Slice α → Nat × Slice α
  | n, none => (n, none)
  | n, some cell =>
    let p := listCopy c n cell.val
    (p.1 + 1, some ⟨p.1, p.2⟩)

def sliceRefs (c : Copier α) : Slice α → List Nat
  | none => []
  | some cell => cell.id :: listRefs c cell.val

def sliceZero (c : Copier α) : Slice α → Slice α
  | none => none
  | some cell => some ⟨0, listZero c cell.val⟩

theorem sliceCopyOk (c : Copier α) :
    CopyOk (sliceCopy c) (sliceRefs c) (sliceZero c) := by
  intro n s
  cases s with
  | none =>
    refine ⟨Nat.le_refl n, ?_, rfl⟩
    intro i hi
    simp [sliceCopy, sliceRefs] at hi
  | some cell =>
    obtain ⟨h1, h2, h3⟩ := listCopyOk c n cell.val
    refine ⟨Nat.le_succ_of_le h1, ?_, ?_⟩
    · intro i hi
      simp only [sliceCopy, sliceRefs] at hi ⊢
      rcases List.mem_cons.mp hi with h | h
      · subst h; exact ⟨h1, Nat.lt_succ_self _⟩
      · exact ⟨(h2 i h).1, Nat.lt_succ_of_lt (h2 i h).2⟩
    · simp only [sliceCopy, sliceZero, listZero] at h3 ⊢
      rw [h3]

/-- Copy of a slice: nil stays nil, otherwise a fresh backing array is
allocated (`*out = make(...)`) and the elements are copied into it. -/
def sliceC (c : Copier α) : Copier (Slice α) :=
  ⟨sliceCopy c, sliceRefs c, sliceZero c, sliceCopyOk c⟩

def ptrCopy (c : Copier α) : Nat → Ptr α → Nat × Ptr α
  | n, none => (n, none)
  | n, some cell =>
    let p := c.copy n cell.val
    (p.1 + 1, some ⟨p.1, p.2⟩)

def ptrRefs (c : Copier α) : Ptr α → List Nat
  | none => []
  | some cell => cell.id :: c.refs cell.val

def ptrZero (c : Copier α) : Ptr α → Ptr α
  | none => none
  | some cell => some ⟨0, c.zero cell.val⟩

theorem ptrCopyOk (c : Copier α) :
    CopyOk (ptrCopy c) (ptrRefs c) (ptrZero c) := by
  intro n a
  cases a with
  | none =>
    refine ⟨Nat.le_refl n, ?_, rfl⟩
    intro i hi
    simp [ptrCopy, ptrRefs] at hi
  | some cell =>
    obtain ⟨h1, h2, h3⟩ := c.ok n cell.val
    refine ⟨Nat.le_succ_of_le h1, ?_, ?_⟩
    · intro i hi
      simp only [ptrCopy, ptrRefs] at hi ⊢
      rcases List.mem_cons.mp hi with h | h
      · subst h; exact ⟨h1, Nat.lt_succ_self _⟩
      · exact ⟨(h2 i h).1, Nat.lt_succ_of_lt (h2 i h).2⟩
    · simp only [ptrCopy, ptrZero] at h3 ⊢
      rw [h3]

/-- Copy of a pointer: nil stays nil, otherwise a fresh cell is allocated
(`*out = new(...)`) and the pointee copied into it. -/
def ptrC (c : Copier α) : Copier (Ptr α) :=
  ⟨ptrCopy c, ptrRefs c, ptrZero c, ptrCopyOk c⟩

def sndCopy (c : Copier β) : Nat → String × β → Nat × (String × β) :=
  fun n kv =>
    let p := c.copy n kv.2
    (p.1, (kv.1, p.2))

def sndRefs (c : Copier β) : String × β → List Nat := fun kv => c.refs kv.2

def sndZero (c : Copier β) : String × β → String × β :=
  fun kv => (kv.1, c.zero kv.2)

theorem sndCopyOk (c : Copier β) :
    CopyOk (sndCopy c) (sndRefs c) (sndZero c) := by
  intro n kv
  obtain ⟨h1, h2, h3⟩ := c.ok n kv.2
  refine ⟨h1, ?_, ?_⟩
  · intro i hi
    simp only [sndCopy, sndRefs] at hi ⊢
    exact h2 i hi
  · simp only [sndCopy, sndZero] at h3 ⊢
    rw [h3]

/-- Copy of a map entry: the key is a Go string (immutable), the value is
copied. -/
def sndC (c : Copier β) : Copier (String × β) :=
  ⟨sndCopy c, sndRefs c, sndZero c, sndCopyOk c⟩

/-- Copy of a map: a fresh map is allocated (`*out = make(map...)`) and
each value copied. -/
def mapC (c : Copier β) : Copier (MapR β) := sliceC (sndC c)

def prodCopy (a : Copier α) (b : Copier β) : Nat → α × β → Nat × (α × β) :=
  fun n ab =>
    let p := a.copy n ab.1
    let q := b.copy p.1 ab.2
    (q.1, (p.2, q.2))

def prodRefs (a : Copier α) (b : Copier β) : α × β → List Nat :=
  fun ab => a.refs ab.1 ++ b.refs ab.2

def prodZero (a : Copier α) (b : Copier β) : α × β → α × β :=
  fun ab => (a.zero ab.1, b.zero ab.2)

theorem prodCopyOk (a : Copier α) (b : Copier β) :
    CopyOk (prodCopy a b) (prodRefs a b) (prodZero a b) := by
  intro n ab
  obtain ⟨h1, h2, h3⟩ := a.ok n ab.1
  obtain ⟨h1', h2', h3'⟩ := b.ok (a.copy n ab.1).1 ab.2
  refine ⟨Nat.le_trans h1 h1', ?_, ?_⟩
  · intro i hi
    simp only [prodCopy, prodRefs] at hi ⊢
    rcases List.mem_append.mp hi with h | h
    · exact ⟨(h2 i h).1, Nat.lt_of_lt_of_le (h2 i h).2 h1'⟩
    · exact ⟨Nat.le_trans h1 (h2' i h).1, (h2' i h).2⟩
  · simp only [prodCopy, prodZero] at h3 h3' ⊢
    rw [h3, h3']

/-- Sequential copy of two components, threading the allocator. -/
def prodC (a : Copier α) (b : Copier β) : Copier (α × β) :=
  ⟨prodCopy a b, prodRefs a b, prodZero a b, prodCopyOk a b⟩

def viewCopy (t : Copier τ) (view : σ → τ) (rebuild : σ → τ → σ) :
    Nat → σ → Nat × σ :=
  fun n s =>
    let p := t.copy n (view s)
    (p.1, rebuild s p.2)

def viewRefs (t : Copier τ) (view : σ → τ) : σ → List Nat :=
  fun s => t.refs (view s)

def viewZero (t : Copier τ) (view : σ → τ) (rebuild : σ → τ → σ) : σ → σ :=
  fun s => rebuild s (t.zero (view s))

theorem viewCopyOk (t : Copier τ) (view : σ → τ) (rebuild : σ → τ → σ)
    (hvr : ∀ s u, view (rebuild s u) = u)
    (hrr : ∀ s u u', rebuild (rebuild s u) u' = rebuild s u') :
    CopyOk (viewCopy t view rebuild) (viewRefs t view)
      (viewZero t view rebuild) := by
  intro n s
  obtain ⟨h1, h2, h3⟩ := t.ok n (view s)
  refine ⟨h1, ?_, ?_⟩
  · intro i hi
    simp only [viewCopy, viewRefs, hvr] at hi ⊢
    exact h2 i hi
  · simp only [viewCopy, viewZero, hvr, hrr]
    rw [h3]

/-- A copier for a structure, given the tuple of its reference-carrying
fields (`view`, in the order the generated code copies them), the update
writing such a tuple back (`rebuild`: the `*out = *in` of the flat fields
plus the fresh reference fields), and a copier for the tuple. -/
def viewC (t : Copier τ) (view : σ → τ) (rebuild : σ → τ → σ)
    (hvr : ∀ s u, view (rebuild s u) = u)
    (hrr : ∀ s u u', rebuild (rebuild s u) u' = rebuild s u') : Copier σ :=
  ⟨viewCopy t view rebuild, viewRefs t view, viewZero t view rebuild,
   viewCopyOk t view rebuild hvr hrr⟩

end DC

namespace DC

/-! ### The api/v1beta1 types, with their reference structure -/

/-- TypeMeta: flat strings. -/
structure TypeMeta where
  kind : String
  apiVersion : String
deriving DecidableEq

/-- JSONPatternRef: flat (zz_generated.deepcopy.go:808-810). -/
structure JSONPatternRef where
  jsonPatternName : String
deriving DecidableEq

/-- JSONPatternExpression: flat (zz_generated.deepcopy.go:774-776). -/
structure JSONPatternExpression where
  selector : String
  operator : String
  value : String
deriving DecidableEq

/-- JSONPattern: both components flat (zz_generated.deepcopy.go:757-761),
so `copy` of a []JSONPattern is a genuine deep copy. -/
structure JSONPattern where
  ref : JSONPatternRef
  expression : JSONPatternExpression
deriving DecidableEq

/-- ValueFrom: flat (zz_generated.deepcopy.go:1180-1182). -/
structure ValueFrom where
  authJSON : String
deriving DecidableEq

/-- StaticOrDynamicValue: flat (zz_generated.deepcopy.go:1144-1147). -/
structure StaticOrDynamicValue where
  value : String
  valueFrom : ValueFrom
deriving DecidableEq

/-- Credentials: flat (zz_generated.deepcopy.go:455-457). -/
structure Credentials where
  location : String
  keySelector : String
deriving DecidableEq

/-- SecretKeyReference: flat (zz_generated.deepcopy.go:1114-1116). -/
structure SecretKeyReference where
  name : String
  key : String
deriving DecidableEq

/-- SigningKeyRef: flat (zz_generated.deepcopy.go:1129-1131). -/
structure SigningKeyRef where
  name : String
  algorithm : String
deriving DecidableEq

/-- EvaluatorCaching: flat (zz_generated.deepcopy.go:527-530). -/
structure EvaluatorCaching where
  key : StaticOrDynamicValue
  ttl : Int
deriving DecidableEq

/-- Identity_OidcConfig: flat (zz_generated.deepcopy.go:727-729). -/
structure Identity_OidcConfig where
  endpoint : String
  ttl : Int
deriving DecidableEq

/-- Identity_Anonymous: empty (zz_generated.deepcopy.go:652-654). -/
structure Identity_Anonymous where
  deriving DecidableEq

/-- Identity_Plain: flat (zz_generated.deepcopy.go:742-744). -/
structure Identity_Plain where
  authJSON : String
deriving DecidableEq

/-- Metadata_UserInfo: flat (zz_generated.deepcopy.go:950-952). -/
structure Metadata_UserInfo where
  identitySource : String
deriving DecidableEq

/-- Response_Plain: flat (zz_generated.deepcopy.go:1060-1063). -/
structure Response_Plain where
  value : String
  valueFrom : ValueFrom
deriving DecidableEq

/-- AuthzedObject: flat (zz_generated.deepcopy.go:393-397). -/
structure AuthzedObject where
  name : StaticOrDynamicValue
  kind : StaticOrDynamicValue
deriving DecidableEq

/-- Authorization_KubernetesAuthz_ResourceAttributes: flat
(zz_generated.deepcopy.go:356-364). -/
structure Authorization_KubernetesAuthz_ResourceAttributes where
  nspace : StaticOrDynamicValue
  group : StaticOrDynamicValue
  resource : StaticOrDynamicValue
  name : StaticOrDynamicValue
  subResource : StaticOrDynamicValue
  verb : StaticOrDynamicValue
deriving DecidableEq

/-- metav1.Time: treated as a flat value by the k8s deep copy. -/
structure Time where
  seconds : Int
  nanos : Int
deriving DecidableEq

/-- v1.LocalObjectReference: flat. -/
structure LocalObjectReference where
  name : String
deriving DecidableEq

/-- runtime.RawExtension (the Value of a JsonProperty): its Raw byte
slice; the external k8s DeepCopyInto copies it freshly. -/
structure RawExtension where
  raw : Slice Nat
deriving DecidableEq

def rawExtensionView (r : RawExtension) : Slice Nat := r.raw

def rawExtensionRebuild (r : RawExtension) (u : Slice Nat) : RawExtension :=
  { r with raw := u }

/-- The external RawExtension.DeepCopyInto, modelled by its deep-copy
contract. -/
def rawExtensionC : Copier RawExtension :=
  viewC (sliceC flatC) rawExtensionView rawExtensionRebuild
    (fun _ _ => rfl) (fun _ _ _ => rfl)

/-- JsonProperty (zz_generated.deepcopy.go:823-827): Value is deep
copied, Name and ValueFrom are flat. -/
structure JsonProperty where
  name : String
  value : RawExtension
  valueFrom : ValueFrom
deriving DecidableEq

def jsonPropertyView (j : JsonProperty) : RawExtension := j.value

def jsonPropertyRebuild (j : JsonProperty) (u : RawExtension) : JsonProperty :=
  { j with value := u }

def jsonPropertyC : Copier JsonProperty :=
  viewC rawExtensionC jsonPropertyView jsonPropertyRebuild
    (fun _ _ => rfl) (fun _ _ _ => rfl)

/-- metav1.LabelSelectorRequirement: key and operator flat, values a
string slice (external k8s deep copy). -/
structure LabelSelectorRequirement where
  key : String
  operator : String
  values : Slice String
deriving DecidableEq

def labelSelectorRequirementView (r : LabelSelectorRequirement) : Slice String :=
  r.values

def labelSelectorRequirementRebuild (r : LabelSelectorRequirement)
    (u : Slice String) : LabelSelectorRequirement :=
  { r with values := u }

def labelSelectorRequirementC : Copier LabelSelectorRequirement :=
  viewC (sliceC flatC) labelSelectorRequirementView labelSelectorRequirementRebuild
    (fun _ _ => rfl) (fun _ _ _ => rfl)

/-- metav1.LabelSelector: match labels map and match expressions slice
(external k8s deep copy, modelled by its contract). -/
structure LabelSelector where
  matchLabels : MapR String
  matchExpressions : Slice LabelSelectorRequirement
deriving DecidableEq

def labelSelectorView (s : LabelSelector) :
    MapR String × Slice LabelSelectorRequirement :=
  (s.matchLabels, s.matchExpressions)

def labelSelectorRebuild (s : LabelSelector)
    (u : MapR String × Slice LabelSelectorRequirement) : LabelSelector :=
  { s with matchLabels := u.1, matchExpressions := u.2 }

def labelSelectorC : Copier LabelSelector :=
  viewC (prodC (mapC flatC) (sliceC labelSelectorRequirementC))
    labelSelectorView labelSelectorRebuild
    (fun _ _ => rfl) (fun _ _ _ => rfl)

/-- metav1.ObjectMeta, reduced to its identifying strings and two
representative reference fields (external k8s deep copy, modelled by its
contract). -/
structure ObjectMeta where
  name : String
  nspace : String
  labels : MapR String
  finalizers : Slice String
deriving DecidableEq

def objectMetaView (m : ObjectMeta) : MapR String × Slice String :=
  (m.labels, m.finalizers)

def objectMetaRebuild (m : ObjectMeta) (u : MapR String × Slice String) :
    ObjectMeta :=
  { m with labels := u.1, finalizers := u.2 }

def objectMetaC : Copier ObjectMeta :=
  viewC (prodC (mapC flatC) (sliceC flatC)) objectMetaView objectMetaRebuild
    (fun _ _ => rfl) (fun _ _ _ => rfl)

/-- OAuth2ClientAuthentication (zz_generated.deepcopy.go:965-985):
ClientSecret flat, Scopes and ExtraParams fresh, Cache a fresh bool
pointer. -/
structure OAuth2ClientAuthentication where
  tokenUrl : String
  clientId : String
  clientSecret : SecretKeyReference
  scopes : Slice String
  extraParams : MapR String
  cache : Ptr Bool
deriving DecidableEq

def oauth2ClientAuthenticationView (o : OAuth2ClientAuthentication) :
    Slice String × MapR String × Ptr Bool :=
  (o.scopes, o.extraParams, o.cache)

def oauth2ClientAuthenticationRebuild (o : OAuth2ClientAuthentication)
    (u : Slice String × MapR String × Ptr Bool) : OAuth2ClientAuthentication :=
  { o with scopes := u.1, extraParams := u.2.1, cache := u.2.2 }

def oauth2ClientAuthenticationC : Copier OAuth2ClientAuthentication :=
  viewC (prodC (sliceC flatC) (prodC (mapC flatC) (ptrC flatC)))
    oauth2ClientAuthenticationView oauth2ClientAuthenticationRebuild
    (fun _ _ => rfl) (fun _ _ _ => rfl)

end DC

namespace DC

/-- Identity_OAuth2Config (zz_generated.deepcopy.go:707-714): Credentials
is a fresh pointer to a flat LocalObjectReference. -/
structure Identity_OAuth2Config where
  tokenIntrospectionUrl : String
  tokenTypeHint : String
  credentials : Ptr LocalObjectReference
deriving DecidableEq

def identityOAuth2ConfigView (o : Identity_OAuth2Config) :
    Ptr LocalObjectReference :=
  o.credentials

def identityOAuth2ConfigRebuild (o : Identity_OAuth2Config)
    (u : Ptr LocalObjectReference) : Identity_OAuth2Config :=
  { o with credentials := u }

def identityOAuth2ConfigC : Copier Identity_OAuth2Config :=
  viewC (ptrC flatC) identityOAuth2ConfigView identityOAuth2ConfigRebuild
    (fun _ _ => rfl) (fun _ _ _ => rfl)

/-- Identity_APIKey (zz_generated.deepcopy.go:632-639): Selector is a
fresh pointer to a deep-copied LabelSelector. -/
structure Identity_APIKey where
  allNamespaces : Bool
  selector : Ptr LabelSelector
deriving DecidableEq

def identityAPIKeyView (o : Identity_APIKey) : Ptr LabelSelector := o.selector

def identityAPIKeyRebuild (o : Identity_APIKey) (u : Ptr LabelSelector) :
    Identity_APIKey :=
  { o with selector := u }

def identityAPIKeyC : Copier Identity_APIKey :=
  viewC (ptrC labelSelectorC) identityAPIKeyView identityAPIKeyRebuild
    (fun _ _ => rfl) (fun _ _ _ => rfl)

/-- Identity_MTLS (zz_generated.deepcopy.go:687-694): like APIKey. -/
structure Identity_MTLS where
  allNamespaces : Bool
  selector : Ptr LabelSelector
deriving DecidableEq

def identityMTLSView (o : Identity_MTLS) : Ptr LabelSelector := o.selector

def identityMTLSRebuild (o : Identity_MTLS) (u : Ptr LabelSelector) :
    Identity_MTLS :=
  { o with selector := u }

def identityMTLSC : Copier Identity_MTLS :=
  viewC (ptrC labelSelectorC) identityMTLSView identityMTLSRebuild
    (fun _ _ => rfl) (fun _ _ _ => rfl)

/-- Identity_KubernetesAuth (zz_generated.deepcopy.go:667-674): Audiences
is a fresh string slice. -/
structure Identity_KubernetesAuth where
  audiences : Slice String
deriving DecidableEq

def identityKubernetesAuthView (o : Identity_KubernetesAuth) : Slice String :=
  o.audiences

def identityKubernetesAuthRebuild (o : Identity_KubernetesAuth)
    (u : Slice String) : Identity_KubernetesAuth :=
  { o with audiences := u }

def identityKubernetesAuthC : Copier Identity_KubernetesAuth :=
  viewC (sliceC flatC) identityKubernetesAuthView identityKubernetesAuthRebuild
    (fun _ _ => rfl) (fun _ _ _ => rfl)

/-- Identity (zz_generated.deepcopy.go:564-619): the reference fields in
the order the generated code copies them: Conditions, Cache,
ExtendedProperties, OAuth2, Oidc, APIKey, MTLS, KubernetesAuth,
Anonymous, Plain; Credentials and the scalars are flat. -/
structure Identity where
  name : String
  priority : Int
  metrics : Bool
  credentials : Credentials
  conditions : Slice JSONPattern
  cache : Ptr EvaluatorCaching
  extendedProperties : Slice JsonProperty
  oauth2 : Ptr Identity_OAuth2Config
  oidc : Ptr Identity_OidcConfig
  apiKey : Ptr Identity_APIKey
  mtls : Ptr Identity_MTLS
  kubernetesAuth : Ptr Identity_KubernetesAuth
  anonymous : Ptr Identity_Anonymous
  plain : Ptr Identity_Plain
deriving DecidableEq

def identityView (o : Identity) :
    Slice JSONPattern × Ptr EvaluatorCaching × Slice JsonProperty
      × Ptr Identity_OAuth2Config × Ptr Identity_OidcConfig
      × Ptr Identity_APIKey × Ptr Identity_MTLS
      × Ptr Identity_KubernetesAuth × Ptr Identity_Anonymous
      × Ptr Identity_Plain :=
  (o.conditions, o.cache, o.extendedProperties, o.oauth2, o.oidc,
   o.apiKey, o.mtls, o.kubernetesAuth, o.anonymous, o.plain)

def identityRebuild (o : Identity)
    (u : Slice JSONPattern × Ptr EvaluatorCaching × Slice JsonProperty
      × Ptr Identity_OAuth2Config × Ptr Identity_OidcConfig
      × Ptr Identity_APIKey × Ptr Identity_MTLS
      × Ptr Identity_KubernetesAuth × Ptr Identity_Anonymous
      × Ptr Identity_Plain) : Identity :=
  { o with conditions := u.1, cache := u.2.1, extendedProperties := u.2.2.1,
           oauth2 := u.2.2.2.1, oidc := u.2.2.2.2.1, apiKey := u.2.2.2.2.2.1,
           mtls := u.2.2.2.2.2.2.1, kubernetesAuth := u.2.2.2.2.2.2.2.1,
           anonymous := u.2.2.2.2.2.2.2.2.1, plain := u.2.2.2.2.2.2.2.2.2 }

def identityC : Copier Identity :=
  viewC
    (prodC (sliceC flatC) (prodC (ptrC flatC) (prodC (sliceC jsonPropertyC)
      (prodC (ptrC identityOAuth2ConfigC) (prodC (ptrC flatC)
        (prodC (ptrC identityAPIKeyC) (prodC (ptrC identityMTLSC)
          (prodC (ptrC identityKubernetesAuthC)
            (prodC (ptrC flatC) (ptrC flatC))))))))))
    identityView identityRebuild
    (fun _ _ => rfl) (fun _ _ _ => rfl)

end DC

namespace DC

/-- GenericHTTP_Method: a flat string. -/
structure GenericHTTP_Method where
  method : String
deriving DecidableEq

/-- Metadata_UMA (zz_generated.deepcopy.go:930-937): Credentials is a
fresh pointer to a flat LocalObjectReference. -/
structure Metadata_UMA where
  endpoint : String
  credentials : Ptr LocalObjectReference
deriving DecidableEq

def metadataUMAView (o : Metadata_UMA) : Ptr LocalObjectReference :=
  o.credentials

def metadataUMARebuild (o : Metadata_UMA) (u : Ptr LocalObjectReference) :
    Metadata_UMA :=
  { o with credentials := u }

def metadataUMAC : Copier Metadata_UMA :=
  viewC (ptrC flatC) metadataUMAView metadataUMARebuild
    (fun _ _ => rfl) (fun _ _ _ => rfl)

/-- Metadata_GenericHTTP (zz_generated.deepcopy.go:880-917): reference
fields in copy order: Method, Body, Parameters, Headers, SharedSecret,
OAuth2; Endpoint, ContentType and Credentials are flat. -/
structure Metadata_GenericHTTP where
  endpoint : String
  contentType : String
  credentials : Credentials
  method : Ptr GenericHTTP_Method
  body : Ptr StaticOrDynamicValue
  parameters : Slice JsonProperty
  headers : Slice JsonProperty
  sharedSecret : Ptr SecretKeyReference
  oauth2 : Ptr OAuth2ClientAuthentication
deriving DecidableEq

def metadataGenericHTTPView (o : Metadata_GenericHTTP) :
    Ptr GenericHTTP_Method × Ptr StaticOrDynamicValue × Slice JsonProperty
      × Slice JsonProperty × Ptr SecretKeyReference
      × Ptr OAuth2ClientAuthentication :=
  (o.method, o.body, o.parameters, o.headers, o.sharedSecret, o.oauth2)

def metadataGenericHTTPRebuild (o : Metadata_GenericHTTP)
    (u : Ptr GenericHTTP_Method × Ptr StaticOrDynamicValue × Slice JsonProperty
      × Slice JsonProperty × Ptr SecretKeyReference
      × Ptr OAuth2ClientAuthentication) : Metadata_GenericHTTP :=
  { o with method := u.1, body := u.2.1, parameters := u.2.2.1,
           headers := u.2.2.2.1, sharedSecret := u.2.2.2.2.1,
           oauth2 := u.2.2.2.2.2 }

def metadataGenericHTTPC : Copier Metadata_GenericHTTP :=
  viewC
    (prodC (ptrC flatC) (prodC (ptrC flatC) (prodC (sliceC jsonPropertyC)
      (prodC (sliceC jsonPropertyC) (prodC (ptrC flatC)
        (ptrC oauth2ClientAuthenticationC))))))
    metadataGenericHTTPView metadataGenericHTTPRebuild
    (fun _ _ => rfl) (fun _ _ _ => rfl)

/-- Metadata (zz_generated.deepcopy.go:840-867): reference fields in copy
order: Conditions, Cache, UserInfo, UMA, GenericHTTP. -/
structure Metadata where
  name : String
  priority : Int
  metrics : Bool
  conditions : Slice JSONPattern
  cache : Ptr EvaluatorCaching
  userInfo : Ptr Metadata_UserInfo
  uma : Ptr Metadata_UMA
  genericHTTP : Ptr Metadata_GenericHTTP
deriving DecidableEq

def metadataView (o : Metadata) :
    Slice JSONPattern × Ptr EvaluatorCaching × Ptr Metadata_UserInfo
      × Ptr Metadata_UMA × Ptr Metadata_GenericHTTP :=
  (o.conditions, o.cache, o.userInfo, o.uma, o.genericHTTP)

def metadataRebuild (o : Metadata)
    (u : Slice JSONPattern × Ptr EvaluatorCaching × Ptr Metadata_UserInfo
      × Ptr Metadata_UMA × Ptr Metadata_GenericHTTP) : Metadata :=
  { o with conditions := u.1, cache := u.2.1, userInfo := u.2.2.1,
           uma := u.2.2.2.1, genericHTTP := u.2.2.2.2 }

def metadataC : Copier Metadata :=
  viewC
    (prodC (sliceC flatC) (prodC (ptrC flatC) (prodC (ptrC flatC)
      (prodC (ptrC metadataUMAC) (ptrC metadataGenericHTTPC)))))
    metadataView metadataRebuild
    (fun _ _ => rfl) (fun _ _ _ => rfl)

/-- ExternalRegistry (zz_generated.deepcopy.go:543-551): SharedSecret is
a fresh pointer to a flat SecretKeyReference; Credentials is flat. -/
structure ExternalRegistry where
  endpoint : String
  ttl : Int
  credentials : Credentials
  sharedSecret : Ptr SecretKeyReference
deriving DecidableEq

def externalRegView (o : ExternalRegistry) : Ptr SecretKeyReference :=
  o.sharedSecret

def externalRegRebuild (o : ExternalRegistry) (u : Ptr SecretKeyReference) :
    ExternalRegistry :=
  { o with sharedSecret := u }

def externalRegC : Copier ExternalRegistry :=
  viewC (ptrC flatC) externalRegView externalRegRebuild
    (fun _ _ => rfl) (fun _ _ _ => rfl)

/-- Authorization_OPA (zz_generated.deepcopy.go:377-380): the embedded
registry block is deep copied. -/
structure Authorization_OPA where
  inlineRego : String
  allValues : Bool
  registry : ExternalRegistry
deriving DecidableEq

def authorizationOPAView (o : Authorization_OPA) : ExternalRegistry :=
  o.registry

def authorizationOPARebuild (o : Authorization_OPA) (u : ExternalRegistry) :
    Authorization_OPA :=
  { o with registry := u }

def authorizationOPAC : Copier Authorization_OPA :=
  viewC externalRegC authorizationOPAView authorizationOPARebuild
    (fun _ _ => rfl) (fun _ _ _ => rfl)

/-- Authorization_JSONPatternMatching (zz_generated.deepcopy.go:310-317):
Rules is a fresh slice of flat JSONPatterns. -/
structure Authorization_JSONPatternMatching where
  rules : Slice JSONPattern
deriving DecidableEq

def authorizationJSONView (o : Authorization_JSONPatternMatching) :
    Slice JSONPattern :=
  o.rules

def authorizationJSONRebuild (o : Authorization_JSONPatternMatching)
    (u : Slice JSONPattern) : Authorization_JSONPatternMatching :=
  { o with rules := u }

def authorizationJSONC : Copier Authorization_JSONPatternMatching :=
  viewC (sliceC flatC) authorizationJSONView authorizationJSONRebuild
    (fun _ _ => rfl) (fun _ _ _ => rfl)

/-- Authorization_KubernetesAuthz (zz_generated.deepcopy.go:330-343):
User flat, Groups a fresh slice, ResourceAttributes a fresh pointer to a
flat block. -/
structure Authorization_KubernetesAuthz where
  user : StaticOrDynamicValue
  groups : Slice String
  resourceAttributes : Ptr Authorization_KubernetesAuthz_ResourceAttributes
deriving DecidableEq

def authorizationK8sView (o : Authorization_KubernetesAuthz) :
    Slice String × Ptr Authorization_KubernetesAuthz_ResourceAttributes :=
  (o.groups, o.resourceAttributes)

def authorizationK8sRebuild (o : Authorization_KubernetesAuthz)
    (u : Slice String × Ptr Authorization_KubernetesAuthz_ResourceAttributes) :
    Authorization_KubernetesAuthz :=
  { o with groups := u.1, resourceAttributes := u.2 }

def authorizationK8sC : Copier Authorization_KubernetesAuthz :=
  viewC (prodC (sliceC flatC) (ptrC flatC))
    authorizationK8sView authorizationK8sRebuild
    (fun _ _ => rfl) (fun _ _ _ => rfl)

/-- Authorization_Authzed (zz_generated.deepcopy.go:279-297):
SharedSecret, Subject and Resource are fresh pointers to flat blocks;
Permission is flat. -/
structure Authorization_Authzed where
  endpoint : String
  insecure : Bool
  permission : StaticOrDynamicValue
  sharedSecret : Ptr SecretKeyReference
  subject : Ptr AuthzedObject
  resource : Ptr AuthzedObject
deriving DecidableEq

def authorizationAuthzedView (o : Authorization_Authzed) :
    Ptr SecretKeyReference × Ptr AuthzedObject × Ptr AuthzedObject :=
  (o.sharedSecret, o.subject, o.resource)

def authorizationAuthzedRebuild (o : Authorization_Authzed)
    (u : Ptr SecretKeyReference × Ptr AuthzedObject × Ptr AuthzedObject) :
    Authorization_Authzed :=
  { o with sharedSecret := u.1, subject := u.2.1, resource := u.2.2 }

def authorizationAuthzedC : Copier Authorization_Authzed :=
  viewC (prodC (ptrC flatC) (prodC (ptrC flatC) (ptrC flatC)))
    authorizationAuthzedView authorizationAuthzedRebuild
    (fun _ _ => rfl) (fun _ _ _ => rfl)

/-- Authorization (zz_generated.deepcopy.go:234-266): reference fields in
copy order: Conditions, Cache, OPA, JSON, KubernetesAuthz, Authzed. -/
structure Authorization where
  name : String
  priority : Int
  metrics : Bool
  conditions : Slice JSONPattern
  cache : Ptr EvaluatorCaching
  opa : Ptr Authorization_OPA
  json : Ptr Authorization_JSONPatternMatching
  kubernetesAuthz : Ptr Authorization_KubernetesAuthz
  authzed : Ptr Authorization_Authzed
deriving DecidableEq

def authorizationView (o : Authorization) :
    Slice JSONPattern × Ptr EvaluatorCaching × Ptr Authorization_OPA
      × Ptr Authorization_JSONPatternMatching
      × Ptr Authorization_KubernetesAuthz × Ptr Authorization_Authzed :=
  (o.conditions, o.cache, o.opa, o.json, o.kubernetesAuthz, o.authzed)

def authorizationRebuild (o : Authorization)
    (u : Slice JSONPattern × Ptr EvaluatorCaching × Ptr Authorization_OPA
      × Ptr Authorization_JSONPatternMatching
      × Ptr Authorization_KubernetesAuthz × Ptr Authorization_Authzed) :
    Authorization :=
  { o with conditions := u.1, cache := u.2.1, opa := u.2.2.1,
           json := u.2.2.2.1, kubernetesAuthz := u.2.2.2.2.1,
           authzed := u.2.2.2.2.2 }

def authorizationC : Copier Authorization :=
  viewC
    (prodC (sliceC flatC) (prodC (ptrC flatC) (prodC (ptrC authorizationOPAC)
      (prodC (ptrC authorizationJSONC) (prodC (ptrC authorizationK8sC)
        (ptrC authorizationAuthzedC))))))
    authorizationView authorizationRebuild
    (fun _ _ => rfl) (fun _ _ _ => rfl)

end DC

namespace DC

/-- Response_DynamicJSON (zz_generated.deepcopy.go:1038-1047): Properties
is a fresh slice of deep-copied JsonProperties. -/
structure Response_DynamicJSON where
  properties : Slice JsonProperty
deriving DecidableEq

def responseDynamicJSONView (o : Response_DynamicJSON) : Slice JsonProperty :=
  o.properties

def responseDynamicJSONRebuild (o : Response_DynamicJSON)
    (u : Slice JsonProperty) : Response_DynamicJSON :=
  { o with properties := u }

def responseDynamicJSONC : Copier Response_DynamicJSON :=
  viewC (sliceC jsonPropertyC) responseDynamicJSONView responseDynamicJSONRebuild
    (fun _ _ => rfl) (fun _ _ _ => rfl)

/-- Response_Wristband (zz_generated.deepcopy.go:1076-1101): CustomClaims
deep, TokenDuration a fresh int64 pointer, SigningKeyRefs a fresh slice
of fresh pointers to flat SigningKeyRefs. -/
structure Response_Wristband where
  issuer : String
  customClaims : Slice JsonProperty
  tokenDuration : Ptr Int
  signingKeyRefs : Slice (Ptr SigningKeyRef)
deriving DecidableEq

def responseWristbandView (o : Response_Wristband) :
    Slice JsonProperty × Ptr Int × Slice (Ptr SigningKeyRef) :=
  (o.customClaims, o.tokenDuration, o.signingKeyRefs)

def responseWristbandRebuild (o : Response_Wristband)
    (u : Slice JsonProperty × Ptr Int × Slice (Ptr SigningKeyRef)) :
    Response_Wristband :=
  { o with customClaims := u.1, tokenDuration := u.2.1,
           signingKeyRefs := u.2.2 }

def responseWristbandC : Copier Response_Wristband :=
  viewC (prodC (sliceC jsonPropertyC) (prodC (ptrC flatC)
      (sliceC (ptrC flatC))))
    responseWristbandView responseWristbandRebuild
    (fun _ _ => rfl) (fun _ _ _ => rfl)

/-- Response (zz_generated.deepcopy.go:998-1025): reference fields in
copy order: Conditions, Cache, Wristband, JSON, Plain. -/
structure Response where
  name : String
  priority : Int
  metrics : Bool
  wrapper : String
  wrapperKey : String
  conditions : Slice JSONPattern
  cache : Ptr EvaluatorCaching
  wristband : Ptr Response_Wristband
  json : Ptr Response_DynamicJSON
  plain : Ptr Response_Plain
deriving DecidableEq

def responseView (o : Response) :
    Slice JSONPattern × Ptr EvaluatorCaching × Ptr Response_Wristband
      × Ptr Response_DynamicJSON × Ptr Response_Plain :=
  (o.conditions, o.cache, o.wristband, o.json, o.plain)

def responseRebuild (o : Response)
    (u : Slice JSONPattern × Ptr EvaluatorCaching × Ptr Response_Wristband
      × Ptr Response_DynamicJSON × Ptr Response_Plain) : Response :=
  { o with conditions := u.1, cache := u.2.1, wristband := u.2.2.1,
           json := u.2.2.2.1, plain := u.2.2.2.2 }

def responseC : Copier Response :=
  viewC
    (prodC (sliceC flatC) (prodC (ptrC flatC) (prodC (ptrC responseWristbandC)
      (prodC (ptrC responseDynamicJSONC) (ptrC flatC)))))
    responseView responseRebuild
    (fun _ _ => rfl) (fun _ _ _ => rfl)

/-- Callback (zz_generated.deepcopy.go:410-422): Conditions and the HTTP
block are deep copied. -/
structure Callback where
  name : String
  priority : Int
  metrics : Bool
  conditions : Slice JSONPattern
  http : Ptr Metadata_GenericHTTP
deriving DecidableEq

def callbackView (o : Callback) :
    Slice JSONPattern × Ptr Metadata_GenericHTTP :=
  (o.conditions, o.http)

def callbackRebuild (o : Callback)
    (u : Slice JSONPattern × Ptr Metadata_GenericHTTP) : Callback :=
  { o with conditions := u.1, http := u.2 }

def callbackC : Copier Callback :=
  viewC (prodC (sliceC flatC) (ptrC metadataGenericHTTPC))
    callbackView callbackRebuild
    (fun _ _ => rfl) (fun _ _ _ => rfl)

/-- DenyWithSpec (zz_generated.deepcopy.go:495-514): Message and Body are
fresh pointers to flat values, Headers a fresh slice of deep-copied
JsonProperties. -/
structure DenyWithSpec where
  code : Int
  message : Ptr StaticOrDynamicValue
  headers : Slice JsonProperty
  body : Ptr StaticOrDynamicValue
deriving DecidableEq

def denyWithSpecView (o : DenyWithSpec) :
    Ptr StaticOrDynamicValue × Slice JsonProperty × Ptr StaticOrDynamicValue :=
  (o.message, o.headers, o.body)

def denyWithSpecRebuild (o : DenyWithSpec)
    (u : Ptr StaticOrDynamicValue × Slice JsonProperty × Ptr StaticOrDynamicValue) :
    DenyWithSpec :=
  { o with message := u.1, headers := u.2.1, body := u.2.2 }

def denyWithSpecC : Copier DenyWithSpec :=
  viewC (prodC (ptrC flatC) (prodC (sliceC jsonPropertyC) (ptrC flatC)))
    denyWithSpecView denyWithSpecRebuild
    (fun _ _ => rfl) (fun _ _ _ => rfl)

/-- DenyWith (zz_generated.deepcopy.go:470-482): both branches are fresh
pointers to deep-copied DenyWithSpecs. -/
structure DenyWith where
  unauthenticated : Ptr DenyWithSpec
  unauthorized : Ptr DenyWithSpec
deriving DecidableEq

def denyWithView (o : DenyWith) : Ptr DenyWithSpec × Ptr DenyWithSpec :=
  (o.unauthenticated, o.unauthorized)

def denyWithRebuild (o : DenyWith) (u : Ptr DenyWithSpec × Ptr DenyWithSpec) :
    DenyWith :=
  { o with unauthenticated := u.1, unauthorized := u.2 }

def denyWithC : Copier DenyWith :=
  viewC (prodC (ptrC denyWithSpecC) (ptrC denyWithSpecC))
    denyWithView denyWithRebuild
    (fun _ _ => rfl) (fun _ _ _ => rfl)

/-- AuthConfigSpec (zz_generated.deepcopy.go:111-198): reference fields
in copy order: Hosts, Patterns (a map whose values are slices of flat
expressions), Conditions, Identity, Metadata, Authorization, Response,
Callbacks (each a fresh slice of fresh pointers to deep-copied entries),
DenyWith. -/
structure AuthConfigSpec where
  hosts : Slice String
  patterns : MapR (Slice JSONPatternExpression)
  conditions : Slice JSONPattern
  identity : Slice (Ptr Identity)
  metadata : Slice (Ptr Metadata)
  authorization : Slice (Ptr Authorization)
  response : Slice (Ptr Response)
  callbacks : Slice (Ptr Callback)
  denyWith : Ptr DenyWith
deriving DecidableEq

def authConfigSpecView (o : AuthConfigSpec) :
    Slice String × MapR (Slice JSONPatternExpression) × Slice JSONPattern
      × Slice (Ptr Identity) × Slice (Ptr Metadata)
      × Slice (Ptr Authorization) × Slice (Ptr Response)
      × Slice (Ptr Callback) × Ptr DenyWith :=
  (o.hosts, o.patterns, o.conditions, o.identity, o.metadata,
   o.authorization, o.response, o.callbacks, o.denyWith)

def authConfigSpecRebuild (o : AuthConfigSpec)
    (u : Slice String × MapR (Slice JSONPatternExpression) × Slice JSONPattern
      × Slice (Ptr Identity) × Slice (Ptr Metadata)
      × Slice (Ptr Authorization) × Slice (Ptr Response)
      × Slice (Ptr Callback) × Ptr DenyWith) : AuthConfigSpec :=
  { o with hosts := u.1, patterns := u.2.1, conditions := u.2.2.1,
           identity := u.2.2.2.1, metadata := u.2.2.2.2.1,
           authorization := u.2.2.2.2.2.1, response := u.2.2.2.2.2.2.1,
           callbacks := u.2.2.2.2.2.2.2.1, denyWith := u.2.2.2.2.2.2.2.2 }

def authConfigSpecC : Copier AuthConfigSpec :=
  viewC
    (prodC (sliceC flatC) (prodC (mapC (sliceC flatC)) (prodC (sliceC flatC)
      (prodC (sliceC (ptrC identityC)) (prodC (sliceC (ptrC metadataC))
        (prodC (sliceC (ptrC authorizationC)) (prodC (sliceC (ptrC responseC))
          (prodC (sliceC (ptrC callbackC)) (ptrC denyWithC)))))))))
    authConfigSpecView authConfigSpecRebuild
    (fun _ _ => rfl) (fun _ _ _ => rfl)

/-- Condition (zz_generated.deepcopy.go:435-442): flat fields and
LastTransitionTime, plus a fresh pointer for LastUpdatedTime. -/
structure Condition where
  type : String
  status : String
  reason : String
  message : String
  lastTransitionTime : Time
  lastUpdatedTime : Ptr Time
deriving DecidableEq

def conditionView (o : Condition) : Ptr Time := o.lastUpdatedTime

def conditionRebuild (o : Condition) (u : Ptr Time) : Condition :=
  { o with lastUpdatedTime := u }

def conditionC : Copier Condition :=
  viewC (ptrC flatC) conditionView conditionRebuild
    (fun _ _ => rfl) (fun _ _ _ => rfl)

/-- Summary (zz_generated.deepcopy.go:1160-1167): HostsReady is a fresh
string slice. -/
structure Summary where
  ready : Bool
  reason : String
  hostsReady : Slice String
deriving DecidableEq

def summaryView (o : Summary) : Slice String := o.hostsReady

def summaryRebuild (o : Summary) (u : Slice String) : Summary :=
  { o with hostsReady := u }

def summaryC : Copier Summary :=
  viewC (sliceC flatC) summaryView summaryRebuild
    (fun _ _ => rfl) (fun _ _ _ => rfl)

/-- AuthConfigStatus (zz_generated.deepcopy.go:211-221): Conditions is a
fresh slice of deep-copied Conditions; Summary is deep copied. -/
structure AuthConfigStatus where
  conditions : Slice Condition
  summary : Summary
deriving DecidableEq

def authConfigStatusView (o : AuthConfigStatus) : Slice Condition × Summary :=
  (o.conditions, o.summary)

def authConfigStatusRebuild (o : AuthConfigStatus)
    (u : Slice Condition × Summary) : AuthConfigStatus :=
  { o with conditions := u.1, summary := u.2 }

def authConfigStatusC : Copier AuthConfigStatus :=
  viewC (prodC (sliceC conditionC) summaryC)
    authConfigStatusView authConfigStatusRebuild
    (fun _ _ => rfl) (fun _ _ _ => rfl)

/-- AuthConfig (zz_generated.deepcopy.go:31-47): TypeMeta flat,
ObjectMeta (external k8s deep copy), Spec and Status deep copied;
DeepCopy allocates a fresh object and calls DeepCopyInto. -/
structure AuthConfig where
  typeMeta : TypeMeta
  objectMeta : ObjectMeta
  spec : AuthConfigSpec
  status : AuthConfigStatus
deriving DecidableEq

def authConfigView (o : AuthConfig) :
    ObjectMeta × AuthConfigSpec × AuthConfigStatus :=
  (o.objectMeta, o.spec, o.status)

def authConfigRebuild (o : AuthConfig)
    (u : ObjectMeta × AuthConfigSpec × AuthConfigStatus) : AuthConfig :=
  { o with objectMeta := u.1, spec := u.2.1, status := u.2.2 }

def authConfigC : Copier AuthConfig :=
  viewC (prodC objectMetaC (prodC authConfigSpecC authConfigStatusC))
    authConfigView authConfigRebuild
    (fun _ _ => rfl) (fun _ _ _ => rfl)

/-- AuthConfig.DeepCopy: the copy of the whole object under allocation
counter n. -/
def deepCopyAuthConfig (n : Nat) (ac : AuthConfig) : Nat × AuthConfig :=
  authConfigC.copy n ac

/-- AuthConfigSpec.DeepCopy. -/
def deepCopyAuthConfigSpec (n : Nat) (s : AuthConfigSpec) : Nat × AuthConfigSpec :=
  authConfigSpecC.copy n s

end DC

/-- Claim C9: DeepCopy of a non-nil AuthConfig (and AuthConfigSpec)
returns a structurally equal value (equal after erasing allocation ids)
that shares no mutable references with the original: every reference id
of the copy differs from every reference id of the original, given that
the original ids predate the allocation counter.  In the Go memory model
this is exactly what makes mutation of any slice, map or pointed-to
field of the copy (Hosts, Patterns, Conditions, the four phase lists,
Callbacks, DenyWith, and everything below them) invisible to the
original. -/
theorem c9_deepcopy (n m : Nat) (ac : DC.AuthConfig) (s : DC.AuthConfigSpec)
    (hac : ∀ j ∈ DC.authConfigC.refs ac, j < n)
    (hs : ∀ j ∈ DC.authConfigSpecC.refs s, j < m) :
    (DC.authConfigC.zero (DC.deepCopyAuthConfig n ac).2 = DC.authConfigC.zero ac
      ∧ ∀ i ∈ DC.authConfigC.refs (DC.deepCopyAuthConfig n ac).2,
          ∀ j ∈ DC.authConfigC.refs ac, i ≠ j)
    ∧ (DC.authConfigSpecC.zero (DC.deepCopyAuthConfigSpec m s).2
        = DC.authConfigSpecC.zero s
      ∧ ∀ i ∈ DC.authConfigSpecC.refs (DC.deepCopyAuthConfigSpec m s).2,
          ∀ j ∈ DC.authConfigSpecC.refs s, i ≠ j) := by
  obtain ⟨h1, h2, h3⟩ := DC.authConfigC.ok n ac
  obtain ⟨h1', h2', h3'⟩ := DC.authConfigSpecC.ok m s
  refine ⟨⟨h3, ?_⟩, ⟨h3', ?_⟩⟩
  · intro i hi j hj
    have hin : n ≤ i := (h2 i hi).1
    have hjn : j < n := hac j hj
    omega
  · intro i hi j hj
    have hin : m ≤ i := (h2' i hi).1
    have hjn : j < m := hs j hj
    omega

/-- A populated Identity entry with live references. -/
def identitySample : DC.Identity :=
  { name := "api-key", priority := 0, metrics := false,
    credentials := ⟨"authorization_header", "APIKEY"⟩,
    conditions := none, cache := none,
    extendedProperties := some ⟨14, [⟨"p", ⟨some ⟨15, [1, 2]⟩⟩, ⟨"auth.identity"⟩⟩]⟩,
    oauth2 := none,
    oidc := some ⟨16, ⟨"http://keycloak.test", 300⟩⟩,
    apiKey := some ⟨17, ⟨true, some ⟨18, ⟨some ⟨19, [("group", "friends")]⟩, none⟩⟩⟩⟩,
    mtls := none, kubernetesAuth := none, anonymous := none, plain := none }

/-- A populated AuthConfigSpec with live references. -/
def specSample : DC.AuthConfigSpec :=
  { hosts := some ⟨5, ["talker-api.test"]⟩,
    patterns := some ⟨6, [("admin", some ⟨7, [⟨"auth.identity.role", "eq", "admin"⟩]⟩)]⟩,
    conditions := some ⟨8, [⟨⟨"admin"⟩, ⟨"", "", ""⟩⟩]⟩,
    identity := some ⟨9, [some ⟨10, identitySample⟩]⟩,
    metadata := none, authorization := none, response := none,
    callbacks := none,
    denyWith := some ⟨11, ⟨some ⟨12, ⟨401, some ⟨13, ⟨"denied", ⟨""⟩⟩⟩, none, none⟩⟩, none⟩⟩ }

/-- A populated AuthConfig with live references. -/
def acSample : DC.AuthConfig :=
  { typeMeta := ⟨"AuthConfig", "authorino.kuadrant.io/v1beta1"⟩,
    objectMeta := ⟨"cfg", "ns", some ⟨0, [("app", "talker")]⟩, some ⟨1, ["fin"]⟩⟩,
    spec := specSample,
    status := ⟨some ⟨2, [⟨"Ready", "True", "", "", ⟨0, 0⟩, some ⟨3, ⟨1, 2⟩⟩⟩]⟩,
               ⟨true, "ok", some ⟨4, ["talker-api.test"]⟩⟩⟩ }

/-- Witness for C9: deep-copying the sample object under allocation
counter 20 yields an id-erased-equal value whose reference ids are all
disjoint from the ids of the original. -/
theorem c9_deepcopy_witness :
    ((∀ j ∈ DC.authConfigC.refs acSample, j < 20)
      ∧ (∀ j ∈ DC.authConfigSpecC.refs specSample, j < 20))
    ∧ ((DC.authConfigC.zero (DC.deepCopyAuthConfig 20 acSample).2
          = DC.authConfigC.zero acSample
        ∧ ∀ i ∈ DC.authConfigC.refs (DC.deepCopyAuthConfig 20 acSample).2,
            ∀ j ∈ DC.authConfigC.refs acSample, i ≠ j)
      ∧ (DC.authConfigSpecC.zero (DC.deepCopyAuthConfigSpec 20 specSample).2
          = DC.authConfigSpecC.zero specSample
        ∧ ∀ i ∈ DC.authConfigSpecC.refs (DC.deepCopyAuthConfigSpec 20 specSample).2,
            ∀ j ∈ DC.authConfigSpecC.refs specSample, i ≠ j)) :=
  ⟨⟨by decide, by decide⟩,
   c9_deepcopy 20 20 acSample specSample (by decide) (by decide)⟩
